import Mathlib

/-!
Shallow embedding of src/src/PowerManager.cpp (flare-engine PowerManager).

Conventions of the embedding:
* C++ `int` values are modelled as `Int`; the one place the source relies on
  integer width (the `static_cast<unsigned>` bounds guard in
  `PowerManager::activate` and in `verifyID`) is modelled with an explicit
  `% 4294967296`.
* `float` map coordinates, speeds and angles are modelled as `ℚ`.  The
  trigonometric utilities (`calcTheta`, `cos`, `sin`, `calcVector`,
  `calcDirection`) live outside this file's sources (Utils.cpp) and are kept
  abstract as oracle functions in `Env`.  Angles are represented in degrees:
  the source stores `degrees * M_PI / 180`, a fixed rescaling by the
  irrational constant `π / 180` which is irrelevant to every statement below.
* The external collaborators (MapCollision queries, the PRNG, the message
  catalog, the sound system) are oracle functions gathered in `Env`; the
  PRNG draws taken inside per-missile loops are indexed by the loop counter
  (the spec's §5 explicitly allows injecting a fixed random source).
* Output queues (hazards, enemy spawns, loot, used items, sounds played,
  combat messages, collision block/unblock calls) are explicit lists in
  `GameState`, appended in program order.
-/

namespace Flare

/-- POWTYPE_* constants of PowerManager.h (values are only compared for
equality; the header is outside the provided sources, `-1` is the
default of an unset `Power::type`). -/
def POWTYPE_FIXED : Int := 0

def POWTYPE_MISSILE : Int := 1

def POWTYPE_REPEATER : Int := 2

def POWTYPE_SPAWN : Int := 3

def POWTYPE_TRANSFORM : Int := 4

def POWTYPE_BLOCK : Int := 5

def SOURCE_TYPE_HERO : Int := 0

def SOURCE_TYPE_NEUTRAL : Int := 1

def SOURCE_TYPE_ENEMY : Int := 2

def SOURCE_TYPE_ALLY : Int := 3

def TRIGGER_BLOCK : Int := 0

def TRIGGER_HIT : Int := 1

def TRIGGER_HALFDEATH : Int := 2

def TRIGGER_JOINCOMBAT : Int := 3

def TRIGGER_DEATH : Int := 4

def BASE_DAMAGE_NONE : Int := 0

def BASE_DAMAGE_MELEE : Int := 1

def BASE_DAMAGE_RANGED : Int := 2

def BASE_DAMAGE_MENT : Int := 3

def STARTING_POS_SOURCE : Int := 0

def STARTING_POS_TARGET : Int := 1

def STARTING_POS_MELEE : Int := 2

def STAT_MODIFIER_MODE_MULTIPLY : Int := 0

def STAT_MODIFIER_MODE_ADD : Int := 1

def STAT_MODIFIER_MODE_ABSOLUTE : Int := 2

def MOVEMENT_NORMAL : Int := 0

/-- FPoint: a 2-d map coordinate (floats in the source, modelled as ℚ). -/
structure FPoint where
  x : ℚ := 0
  y : ℚ := 0
deriving DecidableEq

/-- Truncation of a coordinate toward zero, the semantics of the C++
`static_cast<int>` on a non-negative-or-negative float. -/
def qToInt (q : ℚ) : Int := if q < 0 then ⌈q⌉ else ⌊q⌋

/-- Componentwise floor of a point (the `floor(FPoint)` utility). -/
def fpFloor (p : FPoint) : FPoint := ⟨(⌊p.x⌋ : ℚ), (⌊p.y⌋ : ℚ)⟩

/-- EffectDef as loaded by PowerManager::loadEffects (PowerManager.cpp 56-111). -/
structure EffectDef where
  id : String := ""
  type : String := ""
  icon : Int := -1
  animation : String := ""
  can_stack : Bool := true
  render_above : Bool := false
deriving DecidableEq

/-- PostEffect entry of a power (effect id, magnitude, duration). -/
structure PostEffect where
  id : String := ""
  magnitude : Int := 0
  duration : Int := 0
deriving DecidableEq

/-- Event_Component loot payload.  `parseLoot` is an external LootManager
service: the fields a parsed component carries beyond its drop position are
not read by this file, so a component is modelled by its item id and the
position stamped on it by `PowerManager::buff`. -/
structure EventComponent where
  item : Int := 0
  x : Int := 0
  y : Int := 0
deriving DecidableEq

/-- Argument tuple of the external `EffectManager::addEffect` call made by
PowerManager::effect (PowerManager.cpp 873): the effect stack itself is an
external collaborator, modelled as the list of addEffect calls. -/
structure AppliedEffect where
  data : EffectDef := {}
  duration : Int := 0
  magnitude : Int := 0
  item : Bool := false
  trigger : Int := -1
  passive_id : Int := 0
  source_type : Int := 0
deriving DecidableEq

/-- The slice of the external EffectManager state read/written here:
the one-shot trigger flags and the stack of applied effects. -/
structure EffectsState where
  triggered_block : Bool := false
  triggered_others : Bool := false
  triggered_hit : Bool := false
  triggered_halfdeath : Bool := false
  triggered_joincombat : Bool := false
  triggered_death : Bool := false
  stack : List AppliedEffect := []
deriving DecidableEq

/-- Hazard fields populated by PowerManager (initHazard and the strategy
functions).  Modelled from the spec where Hazard.cpp is outside the provided
sources: a fresh `Hazard` starts with zero damage (§4.3 step 4 relies on the
`dmg_max == 0` default) and `setAngle` records the firing angle (degrees
here, see the header comment).  The non-owning `src_stats` back-pointer is
not modelled. -/
structure Hazard where
  power_index : Int := 0
  source_type : Int := 0
  target_party : Bool := false
  crit_chance : Int := 0
  accuracy : Int := 0
  dmg_min : Int := 0
  dmg_max : Int := 0
  animation_name : String := ""
  directional : Bool := false
  animationKind : Int := 0
  base_lifespan : Int := 0
  lifespan : Int := 0
  on_floor : Bool := false
  base_speed : ℚ := 0
  complete_animation : Bool := false
  radius : ℚ := 0
  trait_elemental : Int := -1
  active : Bool := true
  multitarget : Bool := false
  trait_armor_penetration : Bool := false
  trait_crits_impaired : Int := 0
  beacon : Bool := false
  hp_steal : Int := 0
  mp_steal : Int := 0
  pos : FPoint := {}
  angle : ℚ := 0
  post_power : Int := 0
  wall_power : Int := 0
  loot : List EventComponent := []
  missile : Bool := false
  target_movement_normal : Bool := true
  target_movement_flying : Bool := true
  target_movement_intangible : Bool := true
  walls_block_aoe : Bool := false
  delay_frames : Int := 0
deriving DecidableEq

/-- Map_Enemy spawn request (the external entity-factory input).  The
non-owning `summoner` pointer is not modelled. -/
structure MapEnemy where
  type : String := ""
  pos : FPoint := {}
  direction : Int := 0
  summon_power_index : Int := 0
  hero_ally : Bool := false
deriving DecidableEq

/-- Power definition.  Modelled from the spec: the field *defaults* follow
the `Power` constructor of PowerManager.h (outside the provided sources) —
`-1` sentinels for unset ids/modes, `0` chained power meaning none, `count`
of one.  Only fields read or written by PowerManager.cpp are included. -/
structure Power where
  type : Int := -1
  name : String := ""
  description : String := ""
  icon : Int := -1
  source_type : Int := -1
  beacon : Bool := false
  count : Int := 1
  passive : Bool := false
  passive_trigger : Int := -1
  requires_mp : Int := 0
  requires_hp : Int := 0
  sacrifice : Bool := false
  requires_item : Int := -1
  requires_item_quantity : Int := 0
  requires_equipped_item : Int := -1
  requires_equipped_item_quantity : Int := 0
  sfx_index : Int := -1
  animation_name : String := ""
  directional : Bool := false
  visual_random : Int := 0
  visual_option : Int := 0
  speed : ℚ := 0
  lifespan : Int := 0
  floor : Bool := false
  complete_animation : Bool := false
  use_hazard : Bool := false
  no_attack : Bool := false
  radius : ℚ := 0
  base_damage : Int := 0
  starting_pos : Int := 0
  multitarget : Bool := false
  trait_armor_penetration : Bool := false
  trait_crits_impaired : Int := 0
  trait_elemental : Int := -1
  target_range : ℚ := 0
  hp_steal : Int := 0
  mp_steal : Int := 0
  missile_angle : Int := 0
  angle_variance : Int := 0
  speed_variance : ℚ := 0
  delay : Int := 0
  transform_duration : Int := 0
  manual_untransform : Bool := false
  keep_equipment : Bool := false
  untransform_on_hit : Bool := false
  buff : Bool := false
  buff_teleport : Bool := false
  buff_party : Bool := false
  post_effects : List PostEffect := []
  post_power : Int := 0
  wall_power : Int := 0
  spawn_type : String := ""
  target_neighbor : Int := 0
  target_party : Bool := false
  mod_damage_mode : Int := -1
  mod_damage_value_min : Int := 0
  mod_damage_value_max : Int := 0
  loot : List EventComponent := []
  target_movement_normal : Bool := true
  target_movement_flying : Bool := true
  target_movement_intangible : Bool := true
  walls_block_aoe : Bool := false
deriving DecidableEq

/-- The slice of the external StatBlock read/written by PowerManager.
Derived stats accessed through `StatBlock::get(STAT_*)` are individual
fields here. -/
structure StatBlock where
  hero : Bool := false
  hero_ally : Bool := false
  hp : Int := 0
  mp : Int := 0
  pos : FPoint := {}
  direction : Int := 0
  melee_range : ℚ := 1
  transformed : Bool := false
  transform_duration : Int := 0
  transform_type : String := ""
  manual_untransform : Bool := false
  transform_with_equipment : Bool := false
  untransform_on_hit : Bool := false
  teleportation : Bool := false
  teleport_destination : FPoint := {}
  knockback_srcpos : FPoint := {}
  knockback_destpos : FPoint := {}
  speed_default : ℚ := 0
  in_combat : Bool := false
  refresh_stats : Bool := false
  effects : EffectsState := {}
  stat_crit : Int := 0
  stat_accuracy : Int := 0
  stat_dmg_melee_min : Int := 0
  stat_dmg_melee_max : Int := 0
  stat_dmg_ranged_min : Int := 0
  stat_dmg_ranged_max : Int := 0
  stat_dmg_ment_min : Int := 0
  stat_dmg_ment_max : Int := 0
  stat_hp_max : Int := 0
deriving DecidableEq

/-- A MapCollision block/unblock call (tile mutation requested of the
external collision map). -/
inductive ColOp where
  | unblock (x y : ℚ)
  | blockTile (x y : ℚ) (is_ally : Bool)
deriving DecidableEq

/-- The mutable state owned by (or routed through) PowerManager: the power
table, the loaded effect definitions, and the append-only output queues. -/
structure GameState where
  powers : List Power := []
  effects : List EffectDef := []
  hazards : List Hazard := []
  enemies : List MapEnemy := []
  lootQ : List EventComponent := []
  used_items : List Int := []
  used_equipped_items : List Int := []
  party_buffs : List Int := []
  log_msg : String := ""
  sounds : List Int := []
  combat_msgs : List String := []
  actionbar_locked : Bool := false
  col_ops : List ColOp := []
deriving DecidableEq

/-- Result of an activation: the returned bool plus the updated manager
state and the updated actor StatBlock. -/
structure ActResult where
  ok : Bool
  gs : GameState
  st : StatBlock
deriving DecidableEq

/-- External collaborators (MapCollision queries, Utils trigonometry, the
PRNG, the message catalog).  All are pure oracles; the per-missile PRNG
draws are indexed by loop iteration. -/
structure Env where
  is_empty : ℚ → ℚ → Bool
  is_wall : ℚ → ℚ → Bool
  is_valid_position : ℚ → ℚ → Int → Bool → Bool
  get_random_neighbor2 : FPoint → Int → FPoint
  get_random_neighbor3 : FPoint → Int → Bool → FPoint
  randBetween : Int → Int → Int
  randMod : Int → Int
  angleVarianceDraw : Nat → ℚ
  speedVarianceDraw : Nat → ℚ
  calcTheta : ℚ → ℚ → ℚ → ℚ → ℚ
  calcDirection : ℚ → ℚ → ℚ → ℚ → Int
  calcVector : FPoint → Int → ℚ → FPoint
  cosq : ℚ → ℚ
  sinq : ℚ → ℚ
  msgGet : String → String
  msgFmt : String → Int → String
  statKeys : List String
  elements : List String

/-- Table access `powers[i]` (every in-source access is bounds-guarded by
the caller; out-of-range access is modelled as the default Power). -/
def getPower (l : List Power) (i : Int) : Power := l.getD i.toNat {}

/-- In-place field update `powers[i].f = v` of the power table. -/
def setPowerAt (l : List Power) (i : Int) (f : Power → Power) : List Power :=
  l.set i.toNat (f (getPower l i))

/-- PowerManager::limitRange (PowerManager.cpp 596-609). -/
def limitRange (range : ℚ) (src target : FPoint) : FPoint :=
  if range > 0 then
    let tx := target.x
    let tx := if src.x + range < tx then src.x + range else tx
    let tx := if src.x - range > tx then src.x - range else tx
    let ty := target.y
    let ty := if src.y + range < ty then src.y + range else ty
    let ty := if src.y - range > ty then src.y - range else ty
    ⟨tx, ty⟩
  else target

/-- PowerManager::getEffectDef (PowerManager.cpp 1321-1328): first entry of
the effect table with the given id. -/
def getEffectDef (effects : List EffectDef) (eid : String) : Option EffectDef :=
  effects.find? (fun e => e.id == eid)

/-- PowerManager::isValidEffect (PowerManager.cpp 538-565). -/
def isValidEffect (env : Env) (effects : List EffectDef) (t : String) : Bool :=
  if t == ("speed") then true
  else if t == ("physical") then true
  else if t == ("mental") then true
  else if t == ("offense") then true
  else if t == ("defense") then true
  else if env.statKeys.contains t then true
  else if (env.elements.map (fun e => e ++ ("_resist"))).contains t then true
  else if (getEffectDef effects t).isSome then true
  else false

/-- PowerManager::playSound (PowerManager.cpp 808-811), recorded as a push
onto the played-sounds queue. -/
def playSound (pid : Int) (gs : GameState) : GameState :=
  if (getPower gs.powers pid).sfx_index ≠ -1 then
    {gs with sounds := gs.sounds ++ [(getPower gs.powers pid).sfx_index]}
  else gs

/-- PowerManager::payPowerCost (PowerManager.cpp 1209-1240). -/
def payPowerCost (pid : Int) (gs : GameState) (st : StatBlock) :
    GameState × StatBlock :=
  let p := getPower gs.powers pid
  let r :=
    if st.hero = true then
      let st := {st with mp := st.mp - p.requires_mp}
      let gs :=
        if p.requires_item ≠ -1 then
          {gs with used_items :=
            gs.used_items ++ List.replicate p.requires_item_quantity.toNat p.requires_item}
        else gs
      let gs :=
        if p.requires_equipped_item ≠ -1 ∧
            p.requires_equipped_item ∉ gs.used_equipped_items then
          {gs with used_equipped_items :=
            gs.used_equipped_items ++
              List.replicate p.requires_equipped_item_quantity.toNat p.requires_equipped_item}
        else gs
      (gs, st)
    else (gs, st)
  let gs := r.1
  let st := r.2
  let st := {st with hp := st.hp - p.requires_hp}
  let st := {st with hp := if st.hp < 0 then 0 else st.hp}
  (gs, st)

/-- EffectManager::addEffect call (external), recorded on the stack. -/
def addEffect (es : EffectsState) (ed : EffectDef) (dur mag : Int)
    (trigger passive_id source_type : Int) : EffectsState :=
  {es with stack := es.stack ++ [⟨ed, dur, mag, false, trigger, passive_id, source_type⟩]}

/-- One iteration of the post-effect loop of PowerManager::effect
(PowerManager.cpp 814-874).  `caster` is the caster StatBlock (aliased to
the target at both call sites in the source, but its written fields are
never read back inside one call, so an immutable copy is faithful). -/
def applyPostEffect (env : Env) (p : Power) (pid : Int) (source_type : Int)
    (caster : StatBlock) (acc : GameState × StatBlock) (pe : PostEffect) :
    GameState × StatBlock :=
  let gs := acc.1
  let st := acc.2
  let passive_id : Int := if p.passive = true then pid else 0
  match getEffectDef gs.effects pe.id with
  | some ed =>
      if ed.type == ("shield") then
        let magnitude :=
          if p.mod_damage_mode = STAT_MODIFIER_MODE_MULTIPLY then
            Int.tdiv (caster.stat_dmg_ment_max * p.mod_damage_value_min) 100
          else if p.mod_damage_mode = STAT_MODIFIER_MODE_ADD then
            caster.stat_dmg_ment_max + p.mod_damage_value_min
          else if p.mod_damage_mode = STAT_MODIFIER_MODE_ABSOLUTE then
            env.randBetween p.mod_damage_value_min p.mod_damage_value_max
          else caster.stat_dmg_ment_max
        let gs := {gs with combat_msgs := gs.combat_msgs ++ [env.msgFmt ("+%d Shield") magnitude]}
        (gs, {st with effects := addEffect st.effects ed pe.duration magnitude p.passive_trigger passive_id source_type})
      else if ed.type == ("heal") then
        let magnitude := env.randBetween caster.stat_dmg_ment_min caster.stat_dmg_ment_max
        let magnitude :=
          if p.mod_damage_mode = STAT_MODIFIER_MODE_MULTIPLY then
            Int.tdiv (magnitude * p.mod_damage_value_min) 100
          else if p.mod_damage_mode = STAT_MODIFIER_MODE_ADD then
            magnitude + p.mod_damage_value_min
          else if p.mod_damage_mode = STAT_MODIFIER_MODE_ABSOLUTE then
            env.randBetween p.mod_damage_value_min p.mod_damage_value_max
          else magnitude
        let gs := {gs with combat_msgs := gs.combat_msgs ++ [env.msgFmt ("+%d HP") magnitude]}
        let st := {st with hp := st.hp + magnitude}
        let st := if st.hp > st.stat_hp_max then {st with hp := st.stat_hp_max} else st
        (gs, {st with effects := addEffect st.effects ed pe.duration magnitude p.passive_trigger passive_id source_type})
      else if ed.type == ("knockback") then
        if st.speed_default = 0 then (gs, st)
        else
          let st := {st with knockback_srcpos := caster.pos, knockback_destpos := st.pos}
          (gs, {st with effects := addEffect st.effects ed pe.duration pe.magnitude p.passive_trigger passive_id source_type})
      else
        (gs, {st with effects := addEffect st.effects ed pe.duration pe.magnitude p.passive_trigger passive_id source_type})
  | none =>
      let ed : EffectDef := {id := pe.id, type := pe.id}
      (gs, {st with effects := addEffect st.effects ed pe.duration pe.magnitude p.passive_trigger passive_id source_type})

/-- PowerManager::effect (PowerManager.cpp 813-877). -/
def effect (env : Env) (pid : Int) (gs : GameState) (src caster : StatBlock)
    (source_type : Int) : Bool × GameState × StatBlock :=
  let p := getPower gs.powers pid
  (true, p.post_effects.foldl (applyPostEffect env p pid source_type caster) (gs, src))

/-- PowerManager::initHazard (PowerManager.cpp 641-751). -/
def initHazard (env : Env) (powers : List Power) (pid : Int) (st : StatBlock)
    (target : FPoint) (haz : Hazard) : Hazard :=
  let p := getPower powers pid
  let haz := {haz with power_index := pid}
  let haz := {haz with source_type :=
    if p.source_type = -1 then
      (if st.hero = true then SOURCE_TYPE_HERO
       else if st.hero_ally = true then SOURCE_TYPE_ALLY
       else SOURCE_TYPE_ENEMY)
    else p.source_type}
  let haz := {haz with target_party := p.target_party}
  let haz := {haz with crit_chance := st.stat_crit, accuracy := st.stat_accuracy}
  let haz :=
    if haz.dmg_max = 0 then
      if p.base_damage = BASE_DAMAGE_MELEE then
        {haz with dmg_min := st.stat_dmg_melee_min, dmg_max := st.stat_dmg_melee_max}
      else if p.base_damage = BASE_DAMAGE_RANGED then
        {haz with dmg_min := st.stat_dmg_ranged_min, dmg_max := st.stat_dmg_ranged_max}
      else if p.base_damage = BASE_DAMAGE_MENT then
        {haz with dmg_min := st.stat_dmg_ment_min, dmg_max := st.stat_dmg_ment_max}
      else haz
    else haz
  let haz := if p.animation_name ≠ ("") then {haz with animation_name := p.animation_name} else haz
  let haz :=
    if p.directional = true then
      {haz with directional := p.directional,
                animationKind := env.calcDirection st.pos.x st.pos.y target.x target.y}
    else if p.visual_random ≠ 0 then {haz with animationKind := env.randMod p.visual_random}
    else if p.visual_option ≠ 0 then {haz with animationKind := p.visual_option}
    else haz
  let haz := {haz with base_lifespan := p.lifespan, lifespan := p.lifespan,
                       on_floor := p.floor, base_speed := p.speed,
                       complete_animation := p.complete_animation}
  let haz := {haz with radius := p.radius, trait_elemental := p.trait_elemental,
                       active := !p.no_attack, multitarget := p.multitarget,
                       trait_armor_penetration := p.trait_armor_penetration,
                       trait_crits_impaired := haz.trait_crits_impaired + p.trait_crits_impaired,
                       beacon := p.beacon,
                       hp_steal := haz.hp_steal + p.hp_steal,
                       mp_steal := haz.mp_steal + p.mp_steal}
  let haz :=
    if p.starting_pos = STARTING_POS_SOURCE then {haz with pos := st.pos}
    else if p.starting_pos = STARTING_POS_TARGET then
      {haz with pos := limitRange p.target_range st.pos target}
    else if p.starting_pos = STARTING_POS_MELEE then
      {haz with pos := env.calcVector st.pos st.direction st.melee_range}
    else haz
  let haz :=
    if p.target_neighbor > 0 then
      {haz with pos := env.get_random_neighbor3 (fpFloor st.pos) p.target_neighbor true}
    else haz
  let haz := {haz with post_power := p.post_power, wall_power := p.wall_power}
  let haz := if p.loot ≠ [] then {haz with loot := p.loot} else haz
  let haz := {haz with missile := p.type == POWTYPE_MISSILE}
  {haz with target_movement_normal := p.target_movement_normal,
            target_movement_flying := p.target_movement_flying,
            target_movement_intangible := p.target_movement_intangible,
            walls_block_aoe := p.walls_block_aoe}

/-- Hazard-creation loop of PowerManager::fixed (PowerManager.cpp 890-901). -/
def hazardLoop (env : Env) (pid : Int) (st : StatBlock) (target : FPoint) :
    Nat → Int → GameState → GameState
  | 0, _d, gs => gs
  | Nat.succ n, d, gs =>
      let haz := initHazard env gs.powers pid st target {}
      hazardLoop env pid st target n (d + (getPower gs.powers pid).delay)
        {gs with hazards := gs.hazards ++ [{haz with delay_frames := d}]}

/-- Teleport-destination handling of PowerManager::buff (PowerManager.cpp
759-778). -/
def buffTeleport (env : Env) (p : Power) (st : StatBlock) (target : FPoint) : StatBlock :=
  let tgt := limitRange p.target_range st.pos target
  if p.target_neighbor > 0 then
    let new_target := env.get_random_neighbor2 (fpFloor tgt) p.target_neighbor
    if ⌊new_target.x⌋ = ⌊tgt.x⌋ ∧ ⌊new_target.y⌋ = ⌊tgt.y⌋ then
      {st with teleportation := false}
    else
      {st with teleportation := true, teleport_destination := new_target}
  else
    {st with teleportation := true, teleport_destination := tgt}

/-- PowerManager::buff (PowerManager.cpp 757-802).  `act` is the recursive
entry back into `activate` for the chained post power. -/
def buff (env : Env) (act : Int → GameState → StatBlock → FPoint → ActResult)
    (pid : Int) (gs : GameState) (st : StatBlock) (target : FPoint) :
    GameState × StatBlock :=
  let p := getPower gs.powers pid
  let st := if p.buff_teleport = true then buffTeleport env p st target else st
  let r :=
    if p.buff = true ∨ (p.buff_party = true ∧ st.hero_ally = true) then
      let source_type :=
        if st.hero = true then SOURCE_TYPE_HERO
        else if st.hero_ally = true then SOURCE_TYPE_ALLY
        else SOURCE_TYPE_ENEMY
      (effect env pid gs st st source_type).2
    else (gs, st)
  let gs := r.1
  let st := r.2
  let gs :=
    if p.buff_party = true ∧ p.passive = false then
      {gs with party_buffs := gs.party_buffs ++ [pid]}
    else gs
  if p.use_hazard = false then
    let r := act p.post_power gs st st.pos
    let gs := r.gs
    let st := r.st
    let dropped := (getPower gs.powers pid).loot.map (fun lc => {lc with x := qToInt st.pos.x, y := qToInt st.pos.y})
    let gs := {gs with lootQ := gs.lootQ ++ dropped}
    (gs, st)
  else (gs, st)

/-- PowerManager::fixed (PowerManager.cpp 887-911). -/
def fixed (env : Env) (act : Int → GameState → StatBlock → FPoint → ActResult)
    (pid : Int) (gs : GameState) (st : StatBlock) (target : FPoint) : ActResult :=
  let gs :=
    if (getPower gs.powers pid).use_hazard = true then
      hazardLoop env pid st target (getPower gs.powers pid).count.toNat 0 gs
    else gs
  let r := buff env act pid gs st target
  let gs := playSound pid r.1
  let r2 := payPowerCost pid gs r.2
  ⟨true, r2.1, r2.2⟩

/-- Firing position of a missile power (PowerManager.cpp 924-930). -/
def missileSrc (p : Power) (st : StatBlock) (target : FPoint) : FPoint :=
  if p.starting_pos = STARTING_POS_TARGET then target else st.pos

/-- The hazard built on iteration `idx` of the missile loop
(PowerManager.cpp 938-966): fan offset, optional random angle and speed
variance, and the accumulated delay `d`. -/
def missileHazard (env : Env) (powers : List Power) (pid : Int) (st : StatBlock)
    (target : FPoint) (theta : ℚ) (idx : Nat) (d : Int) : Hazard :=
  let p := getPower powers pid
  let haz := initHazard env powers pid st target {}
  let offset_angle := ((1 - (p.count : ℚ)) / 2 + (idx : ℚ)) * ((p.missile_angle : ℚ))
  let variance := if p.angle_variance ≠ 0 then env.angleVarianceDraw idx else 0
  let alpha := theta + offset_angle + variance
  let speed_var := if p.speed_variance ≠ 0 then env.speedVarianceDraw idx else 0
  {haz with base_speed := haz.base_speed + speed_var, angle := alpha, delay_frames := d}

/-- Missile generation loop (PowerManager.cpp 938-967). -/
def missileLoop (env : Env) (pid : Int) (st : StatBlock) (target : FPoint)
    (theta : ℚ) : Nat → Nat → Int → GameState → GameState
  | 0, _idx, _d, gs => gs
  | Nat.succ n, idx, d, gs =>
      missileLoop env pid st target theta n (idx + 1)
        (d + (getPower gs.powers pid).delay)
        {gs with hazards := gs.hazards ++ [missileHazard env gs.powers pid st target theta idx d]}

/-- PowerManager::missile (PowerManager.cpp 923-973). -/
def missile (env : Env) (pid : Int) (gs : GameState) (st : StatBlock)
    (target : FPoint) : ActResult :=
  let p := getPower gs.powers pid
  let src := missileSrc p st target
  let theta := env.calcTheta src.x src.y target.x target.y
  let gs := missileLoop env pid st target theta p.count.toNat 0 0 gs
  let r := payPowerCost pid gs st
  ⟨true, playSound pid r.1, r.2⟩

/-- Position after `j` fixed-speed steps from `loc0` (the repeater's
`location_iterator`). -/
def stepPoint (loc0 sp : FPoint) (j : Nat) : FPoint :=
  ⟨loc0.x + (j : ℚ) * sp.x, loc0.y + (j : ℚ) * sp.y⟩

/-- Per-step speed vector of a repeater walk (PowerManager.cpp 988-991). -/
def repeaterSpeedVec (env : Env) (p : Power) (st : StatBlock) (target : FPoint) : FPoint :=
  let theta := env.calcTheta st.pos.x st.pos.y target.x target.y
  ⟨p.speed * env.cosq theta, p.speed * env.sinq theta⟩

/-- The step position reached by the repeater walk at step `j` (step 0 is
the caster's position). -/
def repeaterPoint (env : Env) (p : Power) (st : StatBlock) (target : FPoint)
    (j : Nat) : FPoint :=
  stepPoint st.pos (repeaterSpeedVec env p st target) j

/-- Repeater walk loop (PowerManager.cpp 997-1015): advance, stop without a
hazard on a wall tile, otherwise emit one hazard at the reached position. -/
def repeaterLoop (env : Env) (pid : Int) (st : StatBlock) (target : FPoint)
    (sp : FPoint) : Nat → FPoint → Int → GameState → GameState
  | 0, _loc, _d, gs => gs
  | Nat.succ n, loc, d, gs =>
      let loc : FPoint := ⟨loc.x + sp.x, loc.y + sp.y⟩
      if env.is_wall loc.x loc.y = true then gs
      else
        let haz := initHazard env gs.powers pid st target {}
        repeaterLoop env pid st target sp n loc (d + (getPower gs.powers pid).delay)
          {gs with hazards := gs.hazards ++ [{haz with pos := loc, delay_frames := d}]}

/-- PowerManager::repeater (PowerManager.cpp 978-1019). -/
def repeater (env : Env) (pid : Int) (gs : GameState) (st : StatBlock)
    (target : FPoint) : ActResult :=
  let r := payPowerCost pid gs st
  let gs := r.1
  let st := r.2
  let p := getPower gs.powers pid
  let sp := repeaterSpeedVec env p st target
  let gs := playSound pid gs
  let gs := repeaterLoop env pid st target sp p.count.toNat st.pos 0 gs
  ⟨true, gs, st⟩

/-- Spawn position before the blocked-tile fallback (PowerManager.cpp
1031-1039); the un-set default of `Map_Enemy::pos` is the origin. -/
def spawnStartPos (env : Env) (p : Power) (st : StatBlock) (target : FPoint) : FPoint :=
  if p.starting_pos = STARTING_POS_SOURCE then st.pos
  else if p.starting_pos = STARTING_POS_TARGET then target
  else if p.starting_pos = STARTING_POS_MELEE then
    env.calcVector st.pos st.direction st.melee_range
  else {}

/-- Final spawn position after the forced neighbor search (PowerManager.cpp
1041-1049). -/
def spawnFinalPos (env : Env) (p : Power) (st : StatBlock) (target : FPoint) : FPoint :=
  let pos0 := spawnStartPos env p st target
  let tn := if env.is_empty pos0.x pos0.y = false ∧ p.target_neighbor < 1 then 1
            else p.target_neighbor
  if tn > 0 then fpFloor (env.get_random_neighbor2 (fpFloor st.pos) tn) else pos0

/-- PowerManager::spawn (PowerManager.cpp 1025-1072). -/
def spawn (env : Env) (act : Int → GameState → StatBlock → FPoint → ActResult)
    (pid : Int) (gs : GameState) (st : StatBlock) (target : FPoint) : ActResult :=
  let p := getPower gs.powers pid
  let pos := spawnFinalPos env p st target
  if env.is_empty pos.x pos.y = false then ⟨false, gs, st⟩
  else
    let espawn : MapEnemy :=
      {type := p.spawn_type, pos := pos,
       direction := env.calcDirection st.pos.x st.pos.y target.x target.y,
       summon_power_index := pid,
       hero_ally := st.hero || st.hero_ally}
    let gs := {gs with enemies := gs.enemies ++ List.replicate p.count.toNat espawn}
    let r := payPowerCost pid gs st
    let r2 := buff env act pid r.1 r.2 target
    let gs := playSound pid r2.1
    ⟨true, gs, r2.2⟩

/-- Map-event spawn overload (PowerManager.cpp 1077-1089). -/
def spawnMapEnemy (env : Env) (enemy_type : String) (target : FPoint)
    (gs : GameState) : Bool × GameState :=
  let espawn : MapEnemy := {type := enemy_type, pos := target, direction := env.randMod 8}
  (true, {gs with enemies := gs.enemies ++ [espawn]})

/-- PowerManager::transform (PowerManager.cpp 1094-1144). -/
def transform (env : Env) (act : Int → GameState → StatBlock → FPoint → ActResult)
    (pid : Int) (gs : GameState) (st : StatBlock) (target : FPoint) : ActResult :=
  let p := getPower gs.powers pid
  let gs := {gs with actionbar_locked := true}
  if st.transformed = true ∧ p.spawn_type ≠ ("untransform") then
    ⟨false, {gs with log_msg := env.msgGet ("You are already transformed, untransform first.")}, st⟩
  else
    let r :=
      if p.spawn_type = ("untransform") ∧ st.transformed = true then
        let gs := {gs with col_ops := gs.col_ops ++ [ColOp.unblock st.pos.x st.pos.y]}
        if env.is_valid_position st.pos.x st.pos.y MOVEMENT_NORMAL true = true then
          let st := {st with transform_duration := 0, transform_type := ("untransform")}
          (true, {gs with col_ops := gs.col_ops ++ [ColOp.blockTile st.pos.x st.pos.y false]}, st)
        else
          (false,
           {gs with log_msg := env.msgGet ("Could not untransform at this position."),
                    actionbar_locked := false,
                    col_ops := gs.col_ops ++ [ColOp.blockTile st.pos.x st.pos.y false]},
           st)
      else
        let st :=
          if p.transform_duration = 0 then {st with transform_duration := -1}
          else if p.transform_duration > 0 then {st with transform_duration := p.transform_duration}
          else st
        (true, gs, {st with transform_type := p.spawn_type})
    if r.1 = false then ⟨false, r.2.1, r.2.2⟩
    else
      let rb := buff env act pid r.2.1 r.2.2 target
      let gs := rb.1
      let st := rb.2
      let st := {st with manual_untransform := (getPower gs.powers pid).manual_untransform,
                         transform_with_equipment := (getPower gs.powers pid).keep_equipment,
                         untransform_on_hit := (getPower gs.powers pid).untransform_on_hit}
      let gs := playSound pid gs
      let r2 := payPowerCost pid gs st
      ⟨true, r2.1, r2.2⟩

/-- PowerManager::block (PowerManager.cpp 1150-1168).  Note the write into
the shared power table: `powers[power_index].passive_trigger = TRIGGER_BLOCK`. -/
def blockPower (env : Env) (pid : Int) (gs : GameState) (st : StatBlock) : ActResult :=
  if st.effects.triggered_block = true then ⟨false, gs, st⟩
  else
    let st := {st with effects := {st.effects with triggered_block := true}}
    let tbl := setPowerAt gs.powers pid (fun p => {p with passive_trigger := TRIGGER_BLOCK})
    let gs := {gs with powers := tbl}
    let r := (effect env pid gs st st SOURCE_TYPE_HERO).2
    let gs := playSound pid r.1
    let r2 := payPowerCost pid gs r.2
    ⟨true, r2.1, r2.2⟩

/-- PowerManager::activate (PowerManager.cpp 1173-1204).  The fuel
parameter bounds the depth of chained `post_power` re-entry (the C++
recursion, finite for any finite configuration); every statement below is
about runs that do not exhaust it. -/
def activate (env : Env) : Nat → Int → GameState → StatBlock → FPoint → ActResult
  | 0, _pid, gs, st, _target => ⟨false, gs, st⟩
  | Nat.succ fuel, pid, gs, st, target =>
      if pid % 4294967296 ≥ (gs.powers.length : Int) then ⟨false, gs, st⟩
      else
        let p := getPower gs.powers pid
        if st.hero = true ∧ p.requires_mp > st.mp then ⟨false, gs, st⟩
        else if st.hp > 0 ∧ p.sacrifice = false ∧ p.requires_hp ≥ st.hp then ⟨false, gs, st⟩
        else if p.type = POWTYPE_BLOCK then blockPower env pid gs st
        else if p.type = POWTYPE_FIXED then fixed env (activate env fuel) pid gs st target
        else if p.type = POWTYPE_MISSILE then missile env pid gs st target
        else if p.type = POWTYPE_REPEATER then repeater env pid gs st target
        else if p.type = POWTYPE_SPAWN then spawn env (activate env fuel) pid gs st target
        else if p.type = POWTYPE_TRANSFORM then transform env (activate env fuel) pid gs st target
        else ⟨false, gs, st⟩

/-- Tags for the guard checks evaluated by PowerManager::activate, in
program order. -/
inductive GuardCheck where
  | bounds
  | mp
  | hp
  | blockReentrancy
  | dispatch
deriving DecidableEq

/-- The ordered trace of guard evaluations performed by
PowerManager::activate (PowerManager.cpp 1173-1204) together with
the re-entrancy guard evaluated on entry to PowerManager::block
(PowerManager.cpp 1150-1153): the bounds check, then (for heroes) the
mp-cost check, then the hp-cost check, and only then either the block
re-entrancy guard or the type-switch dispatch. -/
def activateCheckOrder (pid : Int) (gs : GameState) (st : StatBlock) : List GuardCheck :=
  if pid % 4294967296 ≥ (gs.powers.length : Int) then [GuardCheck.bounds]
  else if st.hero = true ∧ (getPower gs.powers pid).requires_mp > st.mp then
    [GuardCheck.bounds, GuardCheck.mp]
  else
    let pre := if st.hero = true then [GuardCheck.bounds, GuardCheck.mp] else [GuardCheck.bounds]
    if st.hp > 0 ∧ (getPower gs.powers pid).sacrifice = false ∧
        (getPower gs.powers pid).requires_hp ≥ st.hp then
      pre ++ [GuardCheck.hp]
    else if (getPower gs.powers pid).type = POWTYPE_BLOCK then
      pre ++ [GuardCheck.hp, GuardCheck.blockReentrancy]
    else pre ++ [GuardCheck.hp, GuardCheck.dispatch]

/-- Parser state of PowerManager::loadPowers (PowerManager.cpp 113-136):
the growing table, the two carry-over clear flags, the current id-block and
the skip flag for malformed ids. -/
structure LoadState where
  powers : List Power := []
  clear_post_effects : Bool := true
  clear_loot : Bool := true
  input_id : Int := 0
  skippingEntry : Bool := false
deriving DecidableEq

/-- The config lines of powers/powers.txt relevant to the properties below
(scalar parsing by `toInt`/`parse_duration` is the external FileParser
and carries already-parsed values here).  Every key handler of loadPowers
acts on the state independently, so restricting the alphabet to these keys
is a faithful projection of the loop. -/
inductive ConfigLine where
  | id (v : Int)
  | post_effect (eid : String) (magnitude : Int) (duration : Int)
  | loot
  | requires_equipped_item (item : Int) (qty : Int)

/-- One iteration of the loadPowers read loop (PowerManager.cpp 126-528). -/
def loadPowersStep (env : Env) (effects : List EffectDef) (st : LoadState)
    (line : ConfigLine) : LoadState :=
  match line with
  | ConfigLine.id v =>
      let st := {st with input_id := v, skippingEntry := decide (v < 1)}
      let st :=
        if (st.powers.length : Int) < v + 1 then
          {st with powers := st.powers ++ List.replicate ((v + 1).toNat - st.powers.length) ({} : Power)}
        else st
      {st with clear_post_effects := true, clear_loot := true}
  | ConfigLine.post_effect eid mag dur =>
      if st.skippingEntry = true then st
      else
        let st :=
          if st.clear_post_effects = true then
            let cleared := setPowerAt st.powers st.input_id (fun p => {p with post_effects := []})
            {st with powers := cleared, clear_post_effects := false}
          else st
        if isValidEffect env effects eid = false then st
        else
          let appended := setPowerAt st.powers st.input_id (fun p => {p with post_effects := p.post_effects ++ [⟨eid, mag, dur⟩]})
          {st with powers := appended}
  | ConfigLine.loot =>
      if st.skippingEntry = true then st
      else
        let st :=
          if st.clear_loot = true then
            let cleared := setPowerAt st.powers st.input_id (fun p => {p with loot := []})
            {st with powers := cleared, clear_loot := false}
          else st
        let appended := setPowerAt st.powers st.input_id (fun p => {p with loot := p.loot ++ [{}]})
        {st with powers := appended}
  | ConfigLine.requires_equipped_item item qty =>
      if st.skippingEntry = true then st
      else
        let written := setPowerAt st.powers st.input_id (fun p => {p with requires_equipped_item := item, requires_equipped_item_quantity := qty})
        let st := {st with powers := written}
        if qty > 1 then
          let clamped := setPowerAt st.powers st.input_id (fun p => {p with requires_equipped_item_quantity := 1})
          {st with powers := clamped}
        else st

/-- The loadPowers read loop folded over a line stream. -/
def loadPowersSteps (env : Env) (effects : List EffectDef) (st : LoadState)
    (lines : List ConfigLine) : LoadState :=
  lines.foldl (loadPowersStep env effects) st

/-- PowerManager::verifyID (PowerManager.cpp 1330-1341). -/
def verifyID (powersLen : Nat) (power_id : Int) (allow_zero : Bool) : Int :=
  if ((allow_zero = true ∧ power_id < 0) ∨ (allow_zero = false ∧ power_id < 1)) ∨
      power_id % 4294967296 ≥ (powersLen : Int) then 0
  else power_id

/-- PowerManager::loadPowers (PowerManager.cpp 113-536): the read loop from
the empty table followed by the wall/post power revalidation pass. -/
def loadPowers (env : Env) (effects : List EffectDef) (lines : List ConfigLine) : LoadState :=
  let st := loadPowersSteps env effects {} lines
  {st with powers := st.powers.map (fun p =>
    {p with wall_power := verifyID st.powers.length p.wall_power true,
            post_power := verifyID st.powers.length p.post_power true})}


/-- Power.clearPT: a power with its `passive_trigger` field erased, used to
express which field of a table entry an activation may touch. -/
def Power.clearPT (p : Power) : Power := {p with passive_trigger := 0}

/-- PowersEvolve l l': the power tables agree except that an entry of type
block may have had its `passive_trigger` overwritten with TRIGGER_BLOCK. -/
def PowersEvolve (l l' : List Power) : Prop :=
  l.length = l'.length ∧ ∀ n : Nat,
    (l'.getD n {}).clearPT = (l.getD n {}).clearPT ∧
    ((l'.getD n {}).passive_trigger = (l.getD n {}).passive_trigger ∨
      ((l'.getD n {}).passive_trigger = TRIGGER_BLOCK ∧ (l.getD n {}).type = POWTYPE_BLOCK))

/-- Concrete oracle environment for evaluating the definitions: tiles are
never empty, a wall stands at every x ≥ 4, the bearing oracle reports 90
degrees, the random draws are fixed. -/
def env0 : Env :=
  { is_empty := fun _ _ => false
    is_wall := fun x _ => decide (4 ≤ x)
    is_valid_position := fun _ _ _ _ => true
    get_random_neighbor2 := fun _ _ => {}
    get_random_neighbor3 := fun _ _ _ => {}
    randBetween := fun a _ => a
    randMod := fun _ => 0
    angleVarianceDraw := fun _ => 0
    speedVarianceDraw := fun _ => 0
    calcTheta := fun _ _ _ _ => 90
    calcDirection := fun _ _ _ _ => 0
    calcVector := fun p _ _ => p
    cosq := fun _ => 1
    sinq := fun _ => 0
    msgGet := fun s => s
    msgFmt := fun s _ => s
    statKeys := []
    elements := [] }

/-- Effect table with three plain effect definitions. -/
def effects0 : List EffectDef := [{id := ("A")}, {id := ("B")}, {id := ("C")}]

/-- A powers.txt stream in which id 1 appears in two non-contiguous blocks,
each contributing one post_effect line, interleaved with a block for id 2. -/
def linesC1 : List ConfigLine :=
  [ConfigLine.id 1, ConfigLine.post_effect ("A") 1 10,
   ConfigLine.id 2, ConfigLine.post_effect ("B") 2 20,
   ConfigLine.id 1, ConfigLine.post_effect ("C") 3 30]

/-- A hero actor at the origin with 10 hp and 5 mp. -/
def stHero : StatBlock := {hero := true, hp := 10, mp := 5, stat_hp_max := 10, speed_default := 1}

/-- A non-hero actor with 5 hp. -/
def stEnemy : StatBlock := {hp := 5}

/-- A block-type power (all other fields default). -/
def pBlock : Power := {type := POWTYPE_BLOCK}

/-- A table holding the block power at id 1. -/
def gsBlock : GameState := {powers := [{}, pBlock]}

/-- A transform power whose spawn_type is the "untransform" marker. -/
def pTransformU : Power :=
  {type := POWTYPE_TRANSFORM, spawn_type := ("untransform"), requires_mp := 1, use_hazard := true}

/-- A table holding the untransform power at id 1. -/
def gsTransformU : GameState := {powers := [{}, pTransformU]}

/-- A spawn-type power. -/
def pSpawn : Power := {type := POWTYPE_SPAWN, spawn_type := ("imp")}

/-- A table holding the spawn power at id 1. -/
def gsSpawn : GameState := {powers := [{}, pSpawn]}

/-- A fixed power with a lethal hp cost. -/
def pLethal : Power := {type := POWTYPE_FIXED, requires_hp := 10}

/-- A table holding the lethal-cost power at id 1. -/
def gsLethal : GameState := {powers := [{}, pLethal]}

/-- A repeater power with count 5 and step speed 2. -/
def pRepeat : Power := {type := POWTYPE_REPEATER, count := 5, speed := 2}

/-- A table holding the repeater power at id 1. -/
def gsRepeat : GameState := {powers := [{}, pRepeat]}

/-- A three-missile power with a 30 degree fan and no variance. -/
def pMissile3 : Power := {type := POWTYPE_MISSILE, count := 3, missile_angle := 30}

/-- A table holding the missile power at id 1. -/
def gsMissile : GameState := {powers := [{}, pMissile3]}

/-- A power that consumes one equipped item with id 7. -/
def pEquip : Power := {requires_equipped_item := 7, requires_equipped_item_quantity := 1}

/-- A table holding the equipped-item power at id 1, with item 7 already
pending consumption. -/
def gsEquip : GameState := {powers := [{}, pEquip], used_equipped_items := [7]}

/-- A concrete aim target. -/
def tgt0 : FPoint := {x := 3, y := 0}

theorem getD_set_self {α : Type} (l : List α) (i : Nat) (a d : α) (h : i < l.length) :
    (l.set i a).getD i d = a := by
  induction l generalizing i with
  | nil => simp at h
  | cons x t ih =>
      cases i with
      | zero => rfl
      | succ j => simpa using ih j (by simpa using h)

theorem getD_set_ne {α : Type} (l : List α) (i j : Nat) (a d : α) (h : i ≠ j) :
    (l.set i a).getD j d = l.getD j d := by
  induction l generalizing i j with
  | nil => rfl
  | cons x t ih =>
      cases i with
      | zero =>
          cases j with
          | zero => exact absurd rfl h
          | succ j' => rfl
      | succ i' =>
          cases j with
          | zero => rfl
          | succ j' => simpa using ih i' j' (by omega)

theorem set_oob {α : Type} (l : List α) (i : Nat) (a : α) (h : l.length ≤ i) :
    l.set i a = l := by
  induction l generalizing i with
  | nil => rfl
  | cons x t ih =>
      cases i with
      | zero => simp at h
      | succ i' => simpa using ih i' (by simpa using h)

theorem getD_append_left {α : Type} (l1 l2 : List α) (j : Nat) (d : α) (h : j < l1.length) :
    (l1 ++ l2).getD j d = l1.getD j d := by
  induction l1 generalizing j with
  | nil => simp at h
  | cons x t ih =>
      cases j with
      | zero => rfl
      | succ j' => simpa using ih j' (by simpa using h)

theorem getD_append_len {α : Type} (l1 l2 : List α) (j : Nat) (d : α) :
    (l1 ++ l2).getD (l1.length + j) d = l2.getD j d := by
  induction l1 with
  | nil => simp
  | cons x t ih => simpa [Nat.succ_add] using ih

theorem getD_map_range {α : Type} (f : Nat → α) (n j : Nat) (d : α) (h : j < n) :
    ((List.range n).map f).getD j d = f j := by
  induction n with
  | zero => omega
  | succ m ih =>
      rw [List.range_succ, List.map_append]
      rcases Nat.lt_or_ge j m with hj | hj
      · rw [getD_append_left _ _ _ _ (by simpa using hj)]
        exact ih hj
      · have hjm : j = m := by omega
        subst hjm
        have hl : (List.map f (List.range j)).length = j := by simp
        calc (List.map f (List.range j) ++ List.map f [j]).getD j d
            = (List.map f (List.range j) ++ List.map f [j]).getD
                ((List.map f (List.range j)).length + 0) d := by simp [hl]
          _ = f j := by rw [getD_append_len]; rfl

theorem clearPT_type (p : Power) : p.clearPT.type = p.type := rfl

theorem powersEvolve_refl (l : List Power) : PowersEvolve l l :=
  ⟨rfl, fun _ => ⟨rfl, Or.inl rfl⟩⟩

theorem powersEvolve_of_eq {l l' : List Power} (h : l = l') : PowersEvolve l l' := by
  subst h
  exact powersEvolve_refl l

theorem powersEvolve_trans {a b c : List Power} (h1 : PowersEvolve a b)
    (h2 : PowersEvolve b c) : PowersEvolve a c := by
  obtain ⟨hl1, hf1⟩ := h1
  obtain ⟨hl2, hf2⟩ := h2
  refine ⟨hl1.trans hl2, fun n => ?_⟩
  obtain ⟨hc1, hp1⟩ := hf1 n
  obtain ⟨hc2, hp2⟩ := hf2 n
  refine ⟨hc2.trans hc1, ?_⟩
  have hty : (b.getD n {}).type = (a.getD n {}).type := by
    have := congrArg Power.type hc1
    simpa [clearPT_type] using this
  rcases hp2 with h | hb
  · rcases hp1 with h' | hb'
    · exact Or.inl (h.trans h')
    · exact Or.inr ⟨h.trans hb'.1, hb'.2⟩
  · exact Or.inr ⟨hb.1, hty ▸ hb.2⟩

theorem playSound_powers (pid : Int) (gs : GameState) :
    (playSound pid gs).powers = gs.powers := by
  unfold playSound
  split <;> rfl

theorem playSound_hazards (pid : Int) (gs : GameState) :
    (playSound pid gs).hazards = gs.hazards := by
  unfold playSound
  split <;> rfl

theorem playSound_log_msg (pid : Int) (gs : GameState) :
    (playSound pid gs).log_msg = gs.log_msg := by
  unfold playSound
  split <;> rfl

theorem playSound_col_ops (pid : Int) (gs : GameState) :
    (playSound pid gs).col_ops = gs.col_ops := by
  unfold playSound
  split <;> rfl

theorem payPowerCost_powers (pid : Int) (gs : GameState) (st : StatBlock) :
    (payPowerCost pid gs st).1.powers = gs.powers := by
  unfold payPowerCost
  dsimp only
  repeat' split
  all_goals rfl

theorem payPowerCost_hazards (pid : Int) (gs : GameState) (st : StatBlock) :
    (payPowerCost pid gs st).1.hazards = gs.hazards := by
  unfold payPowerCost
  dsimp only
  repeat' split
  all_goals rfl

theorem payPowerCost_log_msg (pid : Int) (gs : GameState) (st : StatBlock) :
    (payPowerCost pid gs st).1.log_msg = gs.log_msg := by
  unfold payPowerCost
  dsimp only
  repeat' split
  all_goals rfl

theorem payPowerCost_col_ops (pid : Int) (gs : GameState) (st : StatBlock) :
    (payPowerCost pid gs st).1.col_ops = gs.col_ops := by
  unfold payPowerCost
  dsimp only
  repeat' split
  all_goals rfl

theorem payPowerCost_pos (pid : Int) (gs : GameState) (st : StatBlock) :
    (payPowerCost pid gs st).2.pos = st.pos := by
  unfold payPowerCost
  dsimp only
  repeat' split
  all_goals rfl

theorem payPowerCost_transform_type (pid : Int) (gs : GameState) (st : StatBlock) :
    (payPowerCost pid gs st).2.transform_type = st.transform_type := by
  unfold payPowerCost
  dsimp only
  repeat' split
  all_goals rfl

theorem payPowerCost_transform_duration (pid : Int) (gs : GameState) (st : StatBlock) :
    (payPowerCost pid gs st).2.transform_duration = st.transform_duration := by
  unfold payPowerCost
  dsimp only
  repeat' split
  all_goals rfl

theorem payPowerCost_hp (pid : Int) (gs : GameState) (st : StatBlock) :
    (payPowerCost pid gs st).2.hp =
      if st.hp - (getPower gs.powers pid).requires_hp < 0 then 0
      else st.hp - (getPower gs.powers pid).requires_hp := by
  unfold payPowerCost
  dsimp only
  repeat' split
  all_goals simp_all

theorem payPowerCost_mp (pid : Int) (gs : GameState) (st : StatBlock) :
    (payPowerCost pid gs st).2.mp =
      if st.hero = true then st.mp - (getPower gs.powers pid).requires_mp else st.mp := by
  unfold payPowerCost
  dsimp only
  repeat' split
  all_goals simp_all

theorem applyPostEffect_powers (env : Env) (p : Power) (pid : Int) (s : Int)
    (caster : StatBlock) (acc : GameState × StatBlock) (pe : PostEffect) :
    (applyPostEffect env p pid s caster acc pe).1.powers = acc.1.powers := by
  unfold applyPostEffect
  dsimp only
  repeat' split
  all_goals rfl

theorem foldl_applyPostEffect_powers (env : Env) (p : Power) (pid : Int) (s : Int)
    (caster : StatBlock) :
    ∀ (l : List PostEffect) (acc : GameState × StatBlock),
      (l.foldl (applyPostEffect env p pid s caster) acc).1.powers = acc.1.powers := by
  intro l
  induction l with
  | nil => intro acc; rfl
  | cons pe t ih =>
      intro acc
      rw [List.foldl_cons, ih, applyPostEffect_powers]

theorem effect_powers (env : Env) (pid : Int) (gs : GameState) (src caster : StatBlock)
    (s : Int) : (effect env pid gs src caster s).2.1.powers = gs.powers := by
  unfold effect
  exact foldl_applyPostEffect_powers env _ pid s caster _ (gs, src)

theorem hazardLoop_powers (env : Env) (pid : Int) (st : StatBlock) (target : FPoint) :
    ∀ (n : Nat) (d : Int) (gs : GameState),
      (hazardLoop env pid st target n d gs).powers = gs.powers := by
  intro n
  induction n with
  | zero => intro d gs; rfl
  | succ m ih =>
      intro d gs
      simp only [hazardLoop]
      rw [ih]

theorem missileLoop_powers (env : Env) (pid : Int) (st : StatBlock) (target : FPoint)
    (theta : ℚ) :
    ∀ (n idx : Nat) (d : Int) (gs : GameState),
      (missileLoop env pid st target theta n idx d gs).powers = gs.powers := by
  intro n
  induction n with
  | zero => intro idx d gs; rfl
  | succ m ih =>
      intro idx d gs
      simp only [missileLoop]
      rw [ih]

theorem repeaterLoop_powers (env : Env) (pid : Int) (st : StatBlock) (target : FPoint)
    (sp : FPoint) :
    ∀ (n : Nat) (loc : FPoint) (d : Int) (gs : GameState),
      (repeaterLoop env pid st target sp n loc d gs).powers = gs.powers := by
  intro n
  induction n with
  | zero => intro loc d gs; rfl
  | succ m ih =>
      intro loc d gs
      simp only [repeaterLoop]
      split
      · rfl
      · rw [ih]

theorem setPowerAt_evolve (l : List Power) (pid : Int)
    (hty : (getPower l pid).type = POWTYPE_BLOCK) :
    PowersEvolve l (setPowerAt l pid (fun p => {p with passive_trigger := TRIGGER_BLOCK})) := by
  constructor
  · simp [setPowerAt]
  · intro n
    by_cases hn : pid.toNat = n
    · subst hn
      by_cases hlt : pid.toNat < l.length
      · rw [setPowerAt, getD_set_self _ _ _ _ hlt]
        exact ⟨rfl, Or.inr ⟨rfl, hty⟩⟩
      · rw [setPowerAt, set_oob _ _ _ (by omega)]
        exact ⟨rfl, Or.inl rfl⟩
    · rw [setPowerAt, getD_set_ne _ _ _ _ _ hn]
      exact ⟨rfl, Or.inl rfl⟩

theorem blockPower_evolve (env : Env) (pid : Int) (gs : GameState) (st : StatBlock)
    (hty : (getPower gs.powers pid).type = POWTYPE_BLOCK) :
    PowersEvolve gs.powers (blockPower env pid gs st).gs.powers := by
  unfold blockPower
  dsimp only
  split
  · exact powersEvolve_refl _
  · rw [payPowerCost_powers, playSound_powers, effect_powers]
    exact setPowerAt_evolve gs.powers pid hty

theorem buff_evolve (env : Env) (act : Int → GameState → StatBlock → FPoint → ActResult)
    (pid : Int) (gs : GameState) (st : StatBlock) (target : FPoint)
    (hact : ∀ (q : Int) (g : GameState) (s : StatBlock) (t : FPoint),
      PowersEvolve g.powers (act q g s t).gs.powers) :
    PowersEvolve gs.powers (buff env act pid gs st target).1.powers := by
  unfold buff
  dsimp only
  repeat' split
  all_goals
    first
      | (refine powersEvolve_of_eq ?_
         simp [effect_powers]
         done)
      | (refine powersEvolve_trans (powersEvolve_of_eq ?_) (hact _ _ _ _)
         simp [effect_powers])

theorem buff_evolve_from (env : Env) (act : Int → GameState → StatBlock → FPoint → ActResult)
    (pid : Int) (G : GameState) (st : StatBlock) (target : FPoint) (gs : GameState)
    (hact : ∀ (q : Int) (g : GameState) (s : StatBlock) (t : FPoint),
      PowersEvolve g.powers (act q g s t).gs.powers)
    (hG : G.powers = gs.powers) :
    PowersEvolve gs.powers (buff env act pid G st target).1.powers := by
  have h := buff_evolve env act pid G st target hact
  rw [hG] at h
  exact h

theorem fixed_evolve (env : Env) (act : Int → GameState → StatBlock → FPoint → ActResult)
    (pid : Int) (gs : GameState) (st : StatBlock) (target : FPoint)
    (hact : ∀ (q : Int) (g : GameState) (s : StatBlock) (t : FPoint),
      PowersEvolve g.powers (act q g s t).gs.powers) :
    PowersEvolve gs.powers (fixed env act pid gs st target).gs.powers := by
  unfold fixed
  dsimp only
  rw [payPowerCost_powers, playSound_powers]
  refine buff_evolve_from env act pid _ st target gs hact ?_
  split
  · exact hazardLoop_powers env pid st target _ _ _
  · rfl

theorem missile_powers (env : Env) (pid : Int) (gs : GameState) (st : StatBlock)
    (target : FPoint) : (missile env pid gs st target).gs.powers = gs.powers := by
  unfold missile
  dsimp only
  rw [playSound_powers, payPowerCost_powers, missileLoop_powers]

theorem repeater_powers (env : Env) (pid : Int) (gs : GameState) (st : StatBlock)
    (target : FPoint) : (repeater env pid gs st target).gs.powers = gs.powers := by
  unfold repeater
  dsimp only
  rw [repeaterLoop_powers, playSound_powers, payPowerCost_powers]

theorem spawn_evolve (env : Env) (act : Int → GameState → StatBlock → FPoint → ActResult)
    (pid : Int) (gs : GameState) (st : StatBlock) (target : FPoint)
    (hact : ∀ (q : Int) (g : GameState) (s : StatBlock) (t : FPoint),
      PowersEvolve g.powers (act q g s t).gs.powers) :
    PowersEvolve gs.powers (spawn env act pid gs st target).gs.powers := by
  unfold spawn
  dsimp only
  split
  · exact powersEvolve_refl _
  · rw [playSound_powers]
    exact buff_evolve_from env act pid _ _ target gs hact (by rw [payPowerCost_powers])

theorem transform_evolve (env : Env) (act : Int → GameState → StatBlock → FPoint → ActResult)
    (pid : Int) (gs : GameState) (st : StatBlock) (target : FPoint)
    (hact : ∀ (q : Int) (g : GameState) (s : StatBlock) (t : FPoint),
      PowersEvolve g.powers (act q g s t).gs.powers) :
    PowersEvolve gs.powers (transform env act pid gs st target).gs.powers := by
  unfold transform
  dsimp only
  repeat' split
  all_goals
    first
      | exact powersEvolve_refl _
      | (rw [payPowerCost_powers, playSound_powers]
         refine buff_evolve_from env act pid _ _ target gs hact ?_
         rfl)

/-- C2 (amended): the powers table is read-only under every activation path
(fixed, missile, repeater, spawn, transform, block, chained post_power and
passive re-entry all go through `activate`) EXCEPT for the one write in the
block strategy: an entry may only change in its `passive_trigger` field, and
only by being overwritten with TRIGGER_BLOCK on an entry whose type is
block; every other field of every entry is preserved. -/
theorem activate_preserves_powers_except_block_trigger (env : Env) :
    ∀ (fuel : Nat) (pid : Int) (gs : GameState) (st : StatBlock) (target : FPoint),
      PowersEvolve gs.powers (activate env fuel pid gs st target).gs.powers := by
  intro fuel
  induction fuel with
  | zero => intro pid gs st target; exact powersEvolve_refl _
  | succ m ih =>
      intro pid gs st target
      unfold activate
      dsimp only
      repeat' split
      all_goals
        first
          | exact powersEvolve_refl _
          | exact blockPower_evolve env pid gs st (by assumption)
          | exact fixed_evolve env (activate env m) pid gs st target ih
          | exact powersEvolve_of_eq (missile_powers env pid gs st target).symm
          | exact powersEvolve_of_eq (repeater_powers env pid gs st target).symm
          | exact spawn_evolve env (activate env m) pid gs st target ih
          | exact transform_evolve env (activate env m) pid gs st target ih

/-- C2 (counterexample): activating the block power stored at id 1 mutates
the powers table: the stored definition's passive_trigger, -1 before the
activation, is TRIGGER_BLOCK afterwards, so the table is not immutable
after load. -/
theorem block_mutates_passive_trigger :
    ((activate env0 1 1 gsBlock stEnemy tgt0).gs.powers.getD 1 {}).passive_trigger = TRIGGER_BLOCK ∧
    (gsBlock.powers.getD 1 {}).passive_trigger = -1 ∧
    (activate env0 1 1 gsBlock stEnemy tgt0).gs.powers ≠ gsBlock.powers := by
  decide

/-- Buff is the identity when the power neither teleports, nor buffs, nor
party-buffs, and uses a hazard (so no chained post power fires here). -/
theorem buff_trivial (env : Env) (act : Int → GameState → StatBlock → FPoint → ActResult)
    (pid : Int) (gs : GameState) (st : StatBlock) (target : FPoint)
    (h1 : (getPower gs.powers pid).buff_teleport = false)
    (h2 : (getPower gs.powers pid).buff = false)
    (h3 : (getPower gs.powers pid).buff_party = false)
    (h4 : (getPower gs.powers pid).use_hazard = true) :
    buff env act pid gs st target = (gs, st) := by
  unfold buff
  dsimp only
  rw [if_neg (by simp [h4]), if_neg (by simp [h3]), if_neg (by simp [h2, h3]),
      if_neg (by simp [h1])]

/-- C4 (counterexample): for the hero activating the block power at id 1,
the evaluated guard trace is bounds, mp, hp and only then the block
re-entrancy guard, so the re-entrancy guard is not evaluated before the
generic mp/hp precondition checks. -/
theorem activate_block_guard_after_preconditions :
    activateCheckOrder 1 gsBlock stHero =
      [GuardCheck.bounds, GuardCheck.mp, GuardCheck.hp, GuardCheck.blockReentrancy] ∧
    GuardCheck.blockReentrancy ∉ (activateCheckOrder 1 gsBlock stHero).take 3 ∧
    GuardCheck.mp ∈ (activateCheckOrder 1 gsBlock stHero).take 3 := by
  decide

/-- C4 (amended): the generic precondition checks (bounds, hero mp-cost,
hp-cost) are evaluated before any dispatch; the block type is special only
in that its re-entrancy guard is the next check evaluated after them,
where every other type proceeds to its strategy dispatch. -/
theorem activate_check_order_block (pid : Int) (gs : GameState) (st : StatBlock)
    (hb : pid % 4294967296 < (gs.powers.length : Int))
    (hh : st.hero = true)
    (hmp : ¬((getPower gs.powers pid).requires_mp > st.mp))
    (hhp : ¬(st.hp > 0 ∧ (getPower gs.powers pid).sacrifice = false ∧
        (getPower gs.powers pid).requires_hp ≥ st.hp)) :
    activateCheckOrder pid gs st =
      [GuardCheck.bounds, GuardCheck.mp, GuardCheck.hp,
        if (getPower gs.powers pid).type = POWTYPE_BLOCK then GuardCheck.blockReentrancy
        else GuardCheck.dispatch] := by
  unfold activateCheckOrder
  dsimp only
  rw [if_neg (by omega), if_neg (fun h => hmp h.2), if_pos hh, if_neg hhp]
  split <;> simp

/-- C4 (witness): the amended check order evaluated on the concrete block
activation. -/
theorem activate_check_order_block_witness :
    stHero.hero = true ∧
    activateCheckOrder 1 gsBlock stHero =
      [GuardCheck.bounds, GuardCheck.mp, GuardCheck.hp,
        if (getPower gsBlock.powers 1).type = POWTYPE_BLOCK then GuardCheck.blockReentrancy
        else GuardCheck.dispatch] :=
  ⟨rfl, activate_check_order_block 1 gsBlock stHero (by decide) rfl (by decide) (by decide)⟩

/-- C6: activating a power whose hp cost is not survivable (actor alive,
power not marked sacrifice, requires_hp at or above current hp) fails with
the state completely unchanged, whatever the power type. -/
theorem activate_lethal_hp_cost_rejected (env : Env) (fuel : Nat) (pid : Int)
    (gs : GameState) (st : StatBlock) (target : FPoint)
    (hb1 : 0 ≤ pid) (hb2 : pid < (gs.powers.length : Int))
    (hhp : st.hp > 0) (hsac : (getPower gs.powers pid).sacrifice = false)
    (hcost : (getPower gs.powers pid).requires_hp ≥ st.hp) :
    activate env (Nat.succ fuel) pid gs st target = ⟨false, gs, st⟩ := by
  unfold activate
  dsimp only
  rw [if_neg (by omega)]
  by_cases hmp : st.hero = true ∧ (getPower gs.powers pid).requires_mp > st.mp
  · rw [if_pos hmp]
  · rw [if_neg hmp, if_pos ⟨hhp, hsac, hcost⟩]

/-- C6 (witness): the non-hero actor with 5 hp cannot use the power whose
hp cost is 10; activation returns false and changes nothing. -/
theorem activate_lethal_hp_cost_rejected_witness :
    stEnemy.hp > 0 ∧ (getPower gsLethal.powers 1).requires_hp ≥ stEnemy.hp ∧
    activate env0 (Nat.succ 0) 1 gsLethal stEnemy tgt0 = ⟨false, gsLethal, stEnemy⟩ :=
  ⟨by decide, by decide,
   activate_lethal_hp_cost_rejected env0 0 1 gsLethal stEnemy tgt0 (by decide) (by decide)
     (by decide) (by decide) (by decide)⟩

/-- C10: a power index that is negative, or at or beyond the table size, is
rejected by the unsigned-cast bounds guard of activate: the call returns
false with the state completely unchanged, before any table access. -/
theorem activate_out_of_range_rejected (env : Env) (fuel : Nat) (pid : Int)
    (gs : GameState) (st : StatBlock) (target : FPoint)
    (hlo : -(2 ^ 31) ≤ pid) (hhi : pid < 2 ^ 31)
    (hlen : (gs.powers.length : Int) < 2 ^ 31)
    (hout : pid < 0 ∨ (gs.powers.length : Int) ≤ pid) :
    activate env (Nat.succ fuel) pid gs st target = ⟨false, gs, st⟩ := by
  unfold activate
  dsimp only
  rcases hout with h | h
  · rw [if_pos (by omega)]
  · rw [if_pos (by omega)]

/-- C10 (witness): activating power index -1 on a table of size 2 returns
false and changes nothing. -/
theorem activate_out_of_range_rejected_witness :
    ((-1 : Int) < 0 ∨ (gsBlock.powers.length : Int) ≤ -1) ∧
    activate env0 (Nat.succ 0) (-1) gsBlock stEnemy tgt0 = ⟨false, gsBlock, stEnemy⟩ :=
  ⟨Or.inl (by decide),
   activate_out_of_range_rejected env0 0 (-1) gsBlock stEnemy tgt0 (by decide) (by decide)
     (by decide) (Or.inl (by decide))⟩

/-- C5: a spawn-type activation whose final spawn position (after the
forced neighbor search) is still not an empty tile returns false with the
state completely unchanged: no cost paid, no spawn enqueued, no buff
applied, no sound played. -/
theorem spawn_no_empty_tile_no_side_effects (env : Env) (fuel : Nat) (pid : Int)
    (gs : GameState) (st : StatBlock) (target : FPoint)
    (hty : (getPower gs.powers pid).type = POWTYPE_SPAWN)
    (hne : env.is_empty (spawnFinalPos env (getPower gs.powers pid) st target).x
      (spawnFinalPos env (getPower gs.powers pid) st target).y = false) :
    activate env (Nat.succ fuel) pid gs st target = ⟨false, gs, st⟩ := by
  unfold activate
  dsimp only
  split
  · rfl
  · split
    · rfl
    · split
      · rfl
      · simp only [hty, POWTYPE_FIXED, POWTYPE_MISSILE, POWTYPE_REPEATER, POWTYPE_SPAWN,
          POWTYPE_TRANSFORM, POWTYPE_BLOCK]
        norm_num
        unfold spawn
        dsimp only
        rw [if_pos hne]

/-- C5 (witness): with every tile occupied, the concrete spawn activation
fails and leaves the state untouched. -/
theorem spawn_no_empty_tile_no_side_effects_witness :
    env0.is_empty (spawnFinalPos env0 (getPower gsSpawn.powers 1) stHero tgt0).x
      (spawnFinalPos env0 (getPower gsSpawn.powers 1) stHero tgt0).y = false ∧
    activate env0 (Nat.succ 0) 1 gsSpawn stHero tgt0 = ⟨false, gsSpawn, stHero⟩ :=
  ⟨by decide, spawn_no_empty_tile_no_side_effects env0 0 1 gsSpawn stHero tgt0 (by decide) (by decide)⟩

/-- C3 (counterexample): activating the "untransform" power while not
transformed does not fail: it returns true, sets no user-facing message,
records transform_type "untransform", and pays the mp cost (5 mp becomes 4). -/
theorem transform_untransform_not_transformed_succeeds :
    stHero.transformed = false ∧
    (getPower gsTransformU.powers 1).spawn_type = ("untransform") ∧
    (activate env0 1 1 gsTransformU stHero tgt0).ok = true ∧
    (activate env0 1 1 gsTransformU stHero tgt0).gs.log_msg = ("") ∧
    (activate env0 1 1 gsTransformU stHero tgt0).st.transform_type = ("untransform") ∧
    (activate env0 1 1 gsTransformU stHero tgt0).st.mp = 4 := by
  decide

/-- C3 (amended): activating an "untransform" power while not transformed
takes the ordinary transform branch: it succeeds (returns true), emits no
message and no tile block/unblock, records the power's spawn_type
("untransform") as the actor's transform_type, sets the transform duration
from the power's configured duration, and pays the hp and mp cost.
(Stated for a power with no buff flags and use_hazard set, so the chained
buff step is inert.) -/
theorem transform_untransform_not_transformed_behavior (env : Env) (fuel : Nat)
    (pid : Int) (gs : GameState) (st : StatBlock) (target : FPoint)
    (hb1 : 0 ≤ pid) (hb2 : pid < (gs.powers.length : Int))
    (hty : (getPower gs.powers pid).type = POWTYPE_TRANSFORM)
    (hsp : (getPower gs.powers pid).spawn_type = ("untransform"))
    (htr : st.transformed = false)
    (hmp : ¬(st.hero = true ∧ (getPower gs.powers pid).requires_mp > st.mp))
    (hhp : ¬(st.hp > 0 ∧ (getPower gs.powers pid).sacrifice = false ∧
        (getPower gs.powers pid).requires_hp ≥ st.hp))
    (hu : (getPower gs.powers pid).use_hazard = true)
    (hb4 : (getPower gs.powers pid).buff_teleport = false)
    (hb5 : (getPower gs.powers pid).buff = false)
    (hb6 : (getPower gs.powers pid).buff_party = false) :
    (activate env (Nat.succ fuel) pid gs st target).ok = true ∧
    (activate env (Nat.succ fuel) pid gs st target).st.transform_type = ("untransform") ∧
    (activate env (Nat.succ fuel) pid gs st target).st.transform_duration =
      (if (getPower gs.powers pid).transform_duration = 0 then -1
       else if (getPower gs.powers pid).transform_duration > 0 then
         (getPower gs.powers pid).transform_duration
       else st.transform_duration) ∧
    (activate env (Nat.succ fuel) pid gs st target).gs.log_msg = gs.log_msg ∧
    (activate env (Nat.succ fuel) pid gs st target).gs.col_ops = gs.col_ops ∧
    (activate env (Nat.succ fuel) pid gs st target).st.hp =
      (if st.hp - (getPower gs.powers pid).requires_hp < 0 then 0
       else st.hp - (getPower gs.powers pid).requires_hp) ∧
    (activate env (Nat.succ fuel) pid gs st target).st.mp =
      (if st.hero = true then st.mp - (getPower gs.powers pid).requires_mp else st.mp) := by
  have hact : activate env (Nat.succ fuel) pid gs st target =
      transform env (activate env fuel) pid gs st target := by
    unfold activate
    dsimp only
    rw [if_neg (by omega), if_neg hmp, if_neg hhp]
    simp only [hty, POWTYPE_FIXED, POWTYPE_MISSILE, POWTYPE_REPEATER, POWTYPE_SPAWN,
      POWTYPE_TRANSFORM, POWTYPE_BLOCK]
    norm_num
  rw [hact]
  unfold transform
  dsimp only
  rw [if_neg (fun hcon => by simp [htr] at hcon)]
  rw [if_neg (fun hcon => by simp [htr] at hcon)]
  rw [if_neg (fun hcon => by simp [htr] at hcon)]
  dsimp only
  have hb4' : (getPower ({gs with actionbar_locked := true} : GameState).powers pid).buff_teleport = false := hb4
  have hb5' : (getPower ({gs with actionbar_locked := true} : GameState).powers pid).buff = false := hb5
  have hb6' : (getPower ({gs with actionbar_locked := true} : GameState).powers pid).buff_party = false := hb6
  have hu' : (getPower ({gs with actionbar_locked := true} : GameState).powers pid).use_hazard = true := hu
  rw [buff_trivial env (activate env fuel) pid _ _ target hb4' hb5' hb6' hu']
  dsimp only
  refine ⟨rfl, ?_, ?_, ?_, ?_, ?_, ?_⟩
  · rw [payPowerCost_transform_type]
    simpa using hsp
  · rw [payPowerCost_transform_duration]
    split
    · simp
    · split <;> simp
  · rw [payPowerCost_log_msg, playSound_log_msg]
  · rw [payPowerCost_col_ops, playSound_col_ops]
  · split <;> (try split) <;> rw [payPowerCost_hp, playSound_powers] <;> simp <;> omega
  · rw [payPowerCost_mp]
    split <;> (try split) <;> simp [playSound_powers]

/-- C3 (amended, witness): the concrete untransform-while-not-transformed
activation evaluated against the amended statement. -/
theorem transform_untransform_not_transformed_behavior_witness :
    stHero.transformed = false ∧
    ((activate env0 (Nat.succ 0) 1 gsTransformU stHero tgt0).ok = true ∧
     (activate env0 (Nat.succ 0) 1 gsTransformU stHero tgt0).st.transform_type = ("untransform") ∧
     (activate env0 (Nat.succ 0) 1 gsTransformU stHero tgt0).st.transform_duration =
       (if (getPower gsTransformU.powers 1).transform_duration = 0 then -1
        else if (getPower gsTransformU.powers 1).transform_duration > 0 then
          (getPower gsTransformU.powers 1).transform_duration
        else stHero.transform_duration) ∧
     (activate env0 (Nat.succ 0) 1 gsTransformU stHero tgt0).gs.log_msg = gsTransformU.log_msg ∧
     (activate env0 (Nat.succ 0) 1 gsTransformU stHero tgt0).gs.col_ops = gsTransformU.col_ops ∧
     (activate env0 (Nat.succ 0) 1 gsTransformU stHero tgt0).st.hp =
       (if stHero.hp - (getPower gsTransformU.powers 1).requires_hp < 0 then 0
        else stHero.hp - (getPower gsTransformU.powers 1).requires_hp) ∧
     (activate env0 (Nat.succ 0) 1 gsTransformU stHero tgt0).st.mp =
       (if stHero.hero = true then stHero.mp - (getPower gsTransformU.powers 1).requires_mp
        else stHero.mp)) :=
  ⟨rfl,
   transform_untransform_not_transformed_behavior env0 0 1 gsTransformU stHero tgt0
     (by decide) (by decide) (by decide) (by decide) (by decide) (by decide)
     (by decide) (by decide) (by decide) (by decide) (by decide)⟩

theorem fpoint_eta (p : FPoint) : (⟨p.x, p.y⟩ : FPoint) = p := rfl

theorem stepPoint_zero (loc0 sp : FPoint) : stepPoint loc0 sp 0 = loc0 := by
  simp [stepPoint]

theorem stepPoint_x_succ (loc0 sp : FPoint) (j : Nat) :
    (stepPoint loc0 sp j).x + sp.x = (stepPoint loc0 sp (j + 1)).x := by
  simp only [stepPoint]
  push_cast
  ring

theorem stepPoint_y_succ (loc0 sp : FPoint) (j : Nat) :
    (stepPoint loc0 sp j).y + sp.y = (stepPoint loc0 sp (j + 1)).y := by
  simp only [stepPoint]
  push_cast
  ring

theorem repeaterSpeedVec_pay (env : Env) (p : Power) (pid : Int) (gs : GameState)
    (st : StatBlock) (t2 : FPoint) :
    repeaterSpeedVec env p (payPowerCost pid gs st).2 t2 = repeaterSpeedVec env p st t2 := by
  unfold repeaterSpeedVec
  rw [payPowerCost_pos]

theorem repeaterLoop_length (env : Env) (pid : Int) (st : StatBlock) (target : FPoint)
    (sp loc0 : FPoint) :
    ∀ (m n j : Nat) (d : Int) (gs : GameState), 1 ≤ m → m ≤ n →
      env.is_wall (stepPoint loc0 sp (j + m)).x (stepPoint loc0 sp (j + m)).y = true →
      (∀ t, 1 ≤ t → t < m →
        env.is_wall (stepPoint loc0 sp (j + t)).x (stepPoint loc0 sp (j + t)).y = false) →
      (repeaterLoop env pid st target sp n (stepPoint loc0 sp j) d gs).hazards.length =
        gs.hazards.length + (m - 1) := by
  intro m
  induction m with
  | zero => intro n j d gs h1; omega
  | succ m ih =>
      intro n j d gs _ hmn hw hnw
      obtain ⟨n', rfl⟩ : ∃ n', n = n' + 1 := ⟨n - 1, by omega⟩
      simp only [repeaterLoop]
      rcases Nat.eq_zero_or_pos m with hm0 | hmpos
      · subst hm0
        rw [if_pos (by rw [stepPoint_x_succ, stepPoint_y_succ]; exact hw)]
        simp
      · have hnw1 := hnw 1 (le_refl 1) (by omega)
        rw [if_neg (by rw [stepPoint_x_succ, stepPoint_y_succ]; simp [hnw1])]
        rw [stepPoint_x_succ, stepPoint_y_succ, fpoint_eta]
        rw [ih n' (j + 1) (d + (getPower gs.powers pid).delay) _ hmpos (by omega)
          (by have h : j + 1 + m = j + (m + 1) := by omega
              rw [h]
              exact hw)
          (fun t ht1 ht2 => by
            have h : j + 1 + t = j + (t + 1) := by omega
            rw [h]
            exact hnw (t + 1) (by omega) (by omega))]
        simp
        omega

/-- C7: a repeater walk in which the first wall along the stepped line is
hit at step k (1-based, within the configured count) emits exactly k - 1
hazards: one per step strictly before the wall, none for the wall-landing
step, and the walk stops there. -/
theorem repeater_wall_stops_walk (env : Env) (pid : Int) (gs : GameState)
    (st : StatBlock) (target : FPoint) (k : Nat)
    (h1 : 1 ≤ k) (h2 : k ≤ (getPower gs.powers pid).count.toNat)
    (hw : env.is_wall (repeaterPoint env (getPower gs.powers pid) st target k).x
      (repeaterPoint env (getPower gs.powers pid) st target k).y = true)
    (hnw : ∀ j, 1 ≤ j → j < k →
      env.is_wall (repeaterPoint env (getPower gs.powers pid) st target j).x
        (repeaterPoint env (getPower gs.powers pid) st target j).y = false) :
    (repeater env pid gs st target).gs.hazards.length = gs.hazards.length + (k - 1) := by
  unfold repeater
  dsimp only
  rw [payPowerCost_powers, repeaterSpeedVec_pay, payPowerCost_pos]
  rw [show st.pos = stepPoint st.pos (repeaterSpeedVec env (getPower gs.powers pid) st target) 0
    from (stepPoint_zero _ _).symm]
  rw [repeaterLoop_length env pid _ target _ st.pos k _ 0 _ _ h1 h2
    (by rw [Nat.zero_add]; exact hw)
    (fun t ht1 ht2 => by rw [Nat.zero_add]; exact hnw t ht1 ht2)]
  rw [playSound_hazards, payPowerCost_hazards]

/-- C7 (witness): the spec's own example evaluated concretely: a wall on
step 2 of a count-5 repeater emits exactly 1 hazard. -/
theorem repeater_wall_stops_walk_witness :
    env0.is_wall (repeaterPoint env0 (getPower gsRepeat.powers 1) stHero tgt0 2).x
      (repeaterPoint env0 (getPower gsRepeat.powers 1) stHero tgt0 2).y = true ∧
    (repeater env0 1 gsRepeat stHero tgt0).gs.hazards.length = gsRepeat.hazards.length + (2 - 1) :=
  ⟨by
     simp [env0, repeaterPoint, stepPoint, repeaterSpeedVec, getPower, gsRepeat, pRepeat,
       stHero, tgt0, decide_eq_true_eq]
     norm_num,
   repeater_wall_stops_walk env0 1 gsRepeat stHero tgt0 2 (by decide) (by decide)
     (by
       simp [env0, repeaterPoint, stepPoint, repeaterSpeedVec, getPower, gsRepeat, pRepeat,
         stHero, tgt0, decide_eq_true_eq]
       norm_num)
     (fun j hj1 hj2 => by
       have hj : j = 1 := by omega
       subst hj
       simp [env0, repeaterPoint, stepPoint, repeaterSpeedVec, getPower, gsRepeat, pRepeat,
         stHero, tgt0]
       norm_num)⟩

theorem missileLoop_hazards (env : Env) (pid : Int) (st : StatBlock) (target : FPoint)
    (theta : ℚ) :
    ∀ (n idx : Nat) (d : Int) (gs : GameState),
      (missileLoop env pid st target theta n idx d gs).hazards =
        gs.hazards ++ (List.range n).map (fun j =>
          missileHazard env gs.powers pid st target theta (idx + j)
            (d + (j : Int) * (getPower gs.powers pid).delay)) := by
  intro n
  induction n with
  | zero => intro idx d gs; simp [missileLoop]
  | succ m ih =>
      intro idx d gs
      simp only [missileLoop]
      rw [ih]
      dsimp only
      rw [List.range_succ_eq_map, List.map_cons, List.map_map]
      rw [List.append_assoc]
      congr 1
      rw [List.singleton_append]
      congr 1
      · simp
      · refine List.map_congr_left (fun a _ => ?_)
        simp only [Function.comp]
        have h1 : idx + 1 + a = idx + (a + 1) := by omega
        rw [h1]
        congr 1
        push_cast
        ring

/-- C8: absent angle variance, a missile activation appends exactly count
hazards, and the j-th appended hazard's angle is the source-to-target
bearing theta plus the symmetric fan offset ((1 - count)/2 + j) *
missile_angle (degrees), so the fan is evenly spaced in emission order. -/
theorem missile_fan_angles (env : Env) (pid : Int) (gs : GameState) (st : StatBlock)
    (target : FPoint) (j : Nat)
    (hvar : (getPower gs.powers pid).angle_variance = 0)
    (hj : j < (getPower gs.powers pid).count.toNat) :
    (missile env pid gs st target).gs.hazards.length =
      gs.hazards.length + (getPower gs.powers pid).count.toNat ∧
    ((missile env pid gs st target).gs.hazards.getD (gs.hazards.length + j) {}).angle =
      env.calcTheta (missileSrc (getPower gs.powers pid) st target).x
          (missileSrc (getPower gs.powers pid) st target).y target.x target.y +
        ((1 - ((getPower gs.powers pid).count : ℚ)) / 2 + (j : ℚ)) *
          (((getPower gs.powers pid).missile_angle : ℚ)) := by
  unfold missile
  dsimp only
  rw [playSound_hazards, payPowerCost_hazards, missileLoop_hazards]
  constructor
  · simp
  · rw [getD_append_len, getD_map_range _ _ _ _ hj]
    unfold missileHazard
    dsimp only
    rw [if_neg (by simp [hvar])]
    simp

/-- C8 (witness): the three-missile, 30-degree fan: the third hazard's
angle is theta + 30 by the amended formula at j = 2. -/
theorem missile_fan_angles_witness :
    (getPower gsMissile.powers 1).angle_variance = 0 ∧
    ((missile env0 1 gsMissile stHero tgt0).gs.hazards.length =
        gsMissile.hazards.length + (getPower gsMissile.powers 1).count.toNat ∧
      ((missile env0 1 gsMissile stHero tgt0).gs.hazards.getD
          (gsMissile.hazards.length + 2) {}).angle =
        env0.calcTheta (missileSrc (getPower gsMissile.powers 1) stHero tgt0).x
            (missileSrc (getPower gsMissile.powers 1) stHero tgt0).y tgt0.x tgt0.y +
          ((1 - ((getPower gsMissile.powers 1).count : ℚ)) / 2 + (((2 : Nat)) : ℚ)) *
            (((getPower gsMissile.powers 1).missile_angle : ℚ))) :=
  ⟨by decide, missile_fan_angles env0 1 gsMissile stHero tgt0 2 (by decide) (by decide)⟩

theorem getD_oob {α : Type} (l : List α) (n : Nat) (d : α) (h : l.length ≤ n) :
    l.getD n d = d := by
  induction l generalizing n with
  | nil => simp
  | cons x t ih =>
      cases n with
      | zero => simp at h
      | succ n' => simpa using ih n' (by simpa using h)

theorem nodup_append_single (l : List Int) (x : Int) (hnd : l.Nodup) (hx : x ∉ l) :
    (l ++ [x]).Nodup := by
  simp [List.nodup_append, hnd, hx]

theorem payPowerCost_used_equipped (pid : Int) (gs : GameState) (st : StatBlock)
    (hhero : st.hero = true) :
    (payPowerCost pid gs st).1.used_equipped_items =
      if (getPower gs.powers pid).requires_equipped_item ≠ -1 ∧
          (getPower gs.powers pid).requires_equipped_item ∉ gs.used_equipped_items then
        gs.used_equipped_items ++
          List.replicate (getPower gs.powers pid).requires_equipped_item_quantity.toNat
            (getPower gs.powers pid).requires_equipped_item
      else gs.used_equipped_items := by
  unfold payPowerCost
  dsimp only
  rw [if_pos hhero]
  by_cases hitem : (getPower gs.powers pid).requires_item ≠ -1
  · rw [if_pos hitem]
    dsimp only
    split <;> rfl
  · rw [if_neg hitem]
    dsimp only
    split <;> rfl

/-- C9: for a hero, paying the cost of a power whose required equipped item
is already pending in the used_equipped_items queue enqueues nothing more;
with the load-time clamp (quantity at most 1) the queue stays
duplicate-free and grows by at most one entry per payment; and the
requires_equipped_item loader line always stores a quantity of at most 1. -/
theorem payPowerCost_equipped_item_once (env : Env) (effects : List EffectDef)
    (pid : Int) (gs : GameState) (st : StatBlock) (hhero : st.hero = true) :
    ((getPower gs.powers pid).requires_equipped_item ∈ gs.used_equipped_items →
      (payPowerCost pid gs st).1.used_equipped_items = gs.used_equipped_items) ∧
    ((getPower gs.powers pid).requires_equipped_item_quantity ≤ 1 →
      gs.used_equipped_items.Nodup →
      (payPowerCost pid gs st).1.used_equipped_items.Nodup) ∧
    ((getPower gs.powers pid).requires_equipped_item_quantity ≤ 1 →
      (payPowerCost pid gs st).1.used_equipped_items.length ≤
        gs.used_equipped_items.length + 1) ∧
    (∀ (lst : LoadState) (item qty : Int), lst.skippingEntry = false →
      ((loadPowersStep env effects lst (ConfigLine.requires_equipped_item item qty)).powers.getD
          lst.input_id.toNat {}).requires_equipped_item_quantity ≤ 1) := by
  refine ⟨?_, ?_, ?_, ?_⟩
  · intro hmem
    rw [payPowerCost_used_equipped pid gs st hhero, if_neg (fun hcon => hcon.2 hmem)]
  · intro hq hnd
    rw [payPowerCost_used_equipped pid gs st hhero]
    split
    · rename_i hcon
      have hq1 : (getPower gs.powers pid).requires_equipped_item_quantity.toNat ≤ 1 := by omega
      rcases Nat.le_one_iff_eq_zero_or_eq_one.mp hq1 with h0 | h1
      · rw [h0]
        simpa using hnd
      · rw [h1]
        exact nodup_append_single _ _ hnd hcon.2
    · exact hnd
  · intro hq
    rw [payPowerCost_used_equipped pid gs st hhero]
    split
    · simp only [List.length_append, List.length_replicate]
      omega
    · omega
  · intro lst item qty hskip
    unfold loadPowersStep
    dsimp only
    rw [if_neg (show ¬(lst.skippingEntry = true) from by simp [hskip])]
    by_cases hlt : lst.input_id.toNat < lst.powers.length
    · by_cases hq1 : qty > 1
      · rw [if_pos hq1]
        dsimp only
        simp only [setPowerAt]
        rw [getD_set_self _ _ _ _ (by simpa using hlt)]
      · rw [if_neg hq1]
        dsimp only
        simp only [setPowerAt]
        rw [getD_set_self _ _ _ _ hlt]
        simp
        omega
    · have hge : lst.powers.length ≤ lst.input_id.toNat := by omega
      by_cases hq1 : qty > 1
      · rw [if_pos hq1]
        dsimp only
        simp only [setPowerAt]
        rw [set_oob _ _ _ (by simpa using hge), set_oob _ _ _ hge, getD_oob _ _ _ hge]
        decide
      · rw [if_neg hq1]
        dsimp only
        simp only [setPowerAt]
        rw [set_oob _ _ _ hge, getD_oob _ _ _ hge]
        decide

/-- C9 (witness): item 7 already pending consumption: the payment enqueues
nothing further, keeps the queue duplicate-free and at most one longer,
and the loader clamp holds. -/
theorem payPowerCost_equipped_item_once_witness :
    stHero.hero = true ∧
    (((getPower gsEquip.powers 1).requires_equipped_item ∈ gsEquip.used_equipped_items →
        (payPowerCost 1 gsEquip stHero).1.used_equipped_items = gsEquip.used_equipped_items) ∧
      ((getPower gsEquip.powers 1).requires_equipped_item_quantity ≤ 1 →
        gsEquip.used_equipped_items.Nodup →
        (payPowerCost 1 gsEquip stHero).1.used_equipped_items.Nodup) ∧
      ((getPower gsEquip.powers 1).requires_equipped_item_quantity ≤ 1 →
        (payPowerCost 1 gsEquip stHero).1.used_equipped_items.length ≤
          gsEquip.used_equipped_items.length + 1) ∧
      (∀ (lst : LoadState) (item qty : Int), lst.skippingEntry = false →
        ((loadPowersStep env0 effects0 lst
            (ConfigLine.requires_equipped_item item qty)).powers.getD
            lst.input_id.toNat {}).requires_equipped_item_quantity ≤ 1)) :=
  ⟨rfl, payPowerCost_equipped_item_once env0 effects0 1 gsEquip stHero rfl⟩

theorem postEffect_eta (p : PostEffect) : (⟨p.id, p.magnitude, p.duration⟩ : PostEffect) = p :=
  rfl

theorem loadPowersSteps_cons (env : Env) (effects : List EffectDef) (lst : LoadState)
    (l : ConfigLine) (ls : List ConfigLine) :
    loadPowersSteps env effects lst (l :: ls) =
      loadPowersSteps env effects (loadPowersStep env effects lst l) ls := rfl

theorem loadPowersStep_id_facts (env : Env) (effects : List EffectDef) (lst : LoadState)
    (v : Int) (hv : 1 ≤ v) :
    (loadPowersStep env effects lst (ConfigLine.id v)).input_id = v ∧
    (loadPowersStep env effects lst (ConfigLine.id v)).skippingEntry = false ∧
    (loadPowersStep env effects lst (ConfigLine.id v)).clear_post_effects = true ∧
    v.toNat < (loadPowersStep env effects lst (ConfigLine.id v)).powers.length := by
  unfold loadPowersStep
  dsimp only
  split
  · rename_i h
    refine ⟨rfl, by simp only [decide_eq_false_iff_not]; omega, rfl, ?_⟩
    simp only [List.length_append, List.length_replicate]
    omega
  · rename_i h
    refine ⟨rfl, by simp only [decide_eq_false_iff_not]; omega, rfl, ?_⟩
    show v.toNat < lst.powers.length
    omega

theorem loadPowersStep_postEffect_noclear_facts (env : Env) (effects : List EffectDef)
    (lst : LoadState) (eid : String) (mag dur : Int)
    (hskip : lst.skippingEntry = false) (hclear : lst.clear_post_effects = false)
    (hvalid : isValidEffect env effects eid = true)
    (hlt : lst.input_id.toNat < lst.powers.length) :
    (loadPowersStep env effects lst (ConfigLine.post_effect eid mag dur)).skippingEntry = false ∧
    (loadPowersStep env effects lst (ConfigLine.post_effect eid mag dur)).clear_post_effects = false ∧
    (loadPowersStep env effects lst (ConfigLine.post_effect eid mag dur)).input_id = lst.input_id ∧
    (loadPowersStep env effects lst (ConfigLine.post_effect eid mag dur)).powers.length =
      lst.powers.length ∧
    ((loadPowersStep env effects lst (ConfigLine.post_effect eid mag dur)).powers.getD
        lst.input_id.toNat {}).post_effects =
      (lst.powers.getD lst.input_id.toNat {}).post_effects ++ [⟨eid, mag, dur⟩] := by
  unfold loadPowersStep
  dsimp only
  rw [if_neg (show ¬(lst.skippingEntry = true) from by simp [hskip])]
  rw [if_neg (show ¬(lst.clear_post_effects = true) from by simp [hclear])]
  rw [if_neg (show ¬(isValidEffect env effects eid = false) from by simp [hvalid])]
  refine ⟨hskip, hclear, rfl, by simp [setPowerAt], ?_⟩
  simp only [setPowerAt, getPower]
  rw [getD_set_self _ _ _ _ hlt]

theorem loadPowersStep_postEffect_clear_facts (env : Env) (effects : List EffectDef)
    (lst : LoadState) (eid : String) (mag dur : Int)
    (hskip : lst.skippingEntry = false) (hclear : lst.clear_post_effects = true)
    (hvalid : isValidEffect env effects eid = true)
    (hlt : lst.input_id.toNat < lst.powers.length) :
    (loadPowersStep env effects lst (ConfigLine.post_effect eid mag dur)).skippingEntry = false ∧
    (loadPowersStep env effects lst (ConfigLine.post_effect eid mag dur)).clear_post_effects = false ∧
    (loadPowersStep env effects lst (ConfigLine.post_effect eid mag dur)).input_id = lst.input_id ∧
    (loadPowersStep env effects lst (ConfigLine.post_effect eid mag dur)).powers.length =
      lst.powers.length ∧
    ((loadPowersStep env effects lst (ConfigLine.post_effect eid mag dur)).powers.getD
        lst.input_id.toNat {}).post_effects = [⟨eid, mag, dur⟩] := by
  unfold loadPowersStep
  dsimp only
  rw [if_neg (show ¬(lst.skippingEntry = true) from by simp [hskip])]
  rw [if_pos (show lst.clear_post_effects = true from hclear)]
  rw [if_neg (show ¬(isValidEffect env effects eid = false) from by simp [hvalid])]
  refine ⟨hskip, rfl, rfl, by simp [setPowerAt], ?_⟩
  simp only [setPowerAt, getPower]
  rw [getD_set_self _ _ _ _ (by simpa using hlt)]
  rw [getD_set_self _ _ _ _ hlt]
  simp

theorem loadPowers_postEffect_append (env : Env) (effects : List EffectDef) (k : Int) :
    ∀ (pes : List PostEffect) (lst : LoadState),
      lst.skippingEntry = false → lst.clear_post_effects = false → lst.input_id = k →
      k.toNat < lst.powers.length →
      (∀ pe ∈ pes, isValidEffect env effects pe.id = true) →
      ((loadPowersSteps env effects lst (pes.map (fun pe =>
          ConfigLine.post_effect pe.id pe.magnitude pe.duration))).powers.getD k.toNat {}).post_effects
        = (lst.powers.getD k.toNat {}).post_effects ++ pes := by
  intro pes
  induction pes with
  | nil => intro lst _ _ _ _ _; simp [loadPowersSteps]
  | cons pe t ih =>
      intro lst hskip hclear hid hlt hval
      rw [List.map_cons, loadPowersSteps_cons]
      obtain ⟨f1, f2, f3, f4, f5⟩ := loadPowersStep_postEffect_noclear_facts env effects lst
        pe.id pe.magnitude pe.duration hskip hclear (hval pe (by simp))
        (by rw [hid]; exact hlt)
      rw [ih (loadPowersStep env effects lst (ConfigLine.post_effect pe.id pe.magnitude pe.duration))
        f1 f2 (f3.trans hid) (by rw [f4]; exact hlt) (fun q hq => hval q (by simp [hq]))]
      rw [show k.toNat = lst.input_id.toNat from by rw [hid], f5]
      simp [postEffect_eta]

/-- C1 (amended): every id line resets the pending-clear flags, so the first
post_effect line of each id block clears the accumulated list for that id
before appending.  After a block `id k` followed by valid post_effect lines,
the stored post_effects of power k are exactly that block's effects in order,
regardless of what any earlier block (for k or any other id) had stored. -/
theorem loadPowers_postEffect_block_lastWins (env : Env) (effects : List EffectDef)
    (lst : LoadState) (k : Int) (pe : PostEffect) (t : List PostEffect)
    (hk : 1 ≤ k)
    (hval : ∀ q ∈ (pe :: t), isValidEffect env effects q.id = true) :
    ((loadPowersSteps env effects lst (ConfigLine.id k :: (pe :: t).map (fun q =>
        ConfigLine.post_effect q.id q.magnitude q.duration))).powers.getD k.toNat {}).post_effects
      = pe :: t := by
  obtain ⟨hid, hskip, hclear, hlt⟩ := loadPowersStep_id_facts env effects lst k hk
  rw [loadPowersSteps_cons, List.map_cons, loadPowersSteps_cons]
  obtain ⟨f1, f2, f3, f4, f5⟩ := loadPowersStep_postEffect_clear_facts env effects
    (loadPowersStep env effects lst (ConfigLine.id k)) pe.id pe.magnitude pe.duration
    hskip hclear (hval pe (by simp)) (by rw [hid]; exact hlt)
  rw [loadPowers_postEffect_append env effects k t
    (loadPowersStep env effects (loadPowersStep env effects lst (ConfigLine.id k))
      (ConfigLine.post_effect pe.id pe.magnitude pe.duration))
    f1 f2 (f3.trans hid) (by rw [f4]; exact hlt) (fun q hq => hval q (by simp [hq]))]
  rw [show k.toNat = (loadPowersStep env effects lst (ConfigLine.id k)).input_id.toNat from
    by rw [hid], f5]
  simp [postEffect_eta]

/-- C1 (counterexample): post_effect lines for id 1 appear in two blocks
separated by a block for id 2; the loaded power 1 keeps only the second
block's effect C, because the re-appearing id line re-arms the clear and the
first block's effect A is discarded — the two blocks do not accumulate. -/
theorem loadPowers_postEffect_interleaved_clears_again :
    ((loadPowers env0 effects0 linesC1).powers.getD 1 {}).post_effects = [⟨("C"), 3, 30⟩] ∧
    ((loadPowers env0 effects0 linesC1).powers.getD 1 {}).post_effects ≠
      [⟨("A"), 1, 10⟩, ⟨("C"), 3, 30⟩] := by
  decide

/-- C1 (witness): a block for id 4 with two valid post_effect lines loads
exactly those two effects in order. -/
theorem loadPowers_postEffect_block_lastWins_witness :
    ((1 : Int) ≤ 4 ∧
      ∀ q ∈ (⟨("A"), 1, 10⟩ :: [⟨("B"), 2, 20⟩] : List PostEffect),
        isValidEffect env0 effects0 q.id = true) ∧
    ((loadPowersSteps env0 effects0 ({} : LoadState) (ConfigLine.id 4 ::
        (⟨("A"), 1, 10⟩ :: [⟨("B"), 2, 20⟩] : List PostEffect).map (fun q =>
          ConfigLine.post_effect q.id q.magnitude q.duration))).powers.getD
        (4 : Int).toNat {}).post_effects
      = ⟨("A"), 1, 10⟩ :: [⟨("B"), 2, 20⟩] :=
  ⟨⟨by decide, by decide⟩,
    loadPowers_postEffect_block_lastWins env0 effects0 {} 4 ⟨("A"), 1, 10⟩
      [⟨("B"), 2, 20⟩] (by decide) (by decide)⟩

end Flare
